import Mathlib

set_option maxRecDepth 4000

/-! # Verification of the quanfal_bot perception-action core

Shallow embedding of the repository `quanfal_bot` (files `ui_controller.py`,
`navigation.py`, `image_recognition.py`, `crafting/blacksmithing.py`,
`core.py`) together with proofs about the embedded definitions.

External libraries (pyautogui, OpenCV, pytesseract) are modelled by their
availability flags and, where a claim depends on their documented behaviour
(cv2.matchTemplate with TM_CCOEFF_NORMED, cv2.minMaxLoc), by that documented
behaviour; everything else is transcribed from the Python source. -/

/-! ## ui_controller.py: UIController and its stop/pause uiGuard -/

/-- State of the two control flags (the `stop_event` / `pause_event`
threading.Event pair) as observed at one poll step of the uiGuard. -/
structure ControlSig where
  stop : Bool
  pause : Bool
  deriving DecidableEq, Repr

/-- Result of one guarded UIController primitive call.
`notImplemented` models `NotImplementedError` (pyautogui missing),
`cancelled` models `RuntimeError("Bot stopped")` raised by the uiGuard,
`performed` means the pyautogui primitive was issued,
`stillPaused` marks fuel exhaustion of the (unbounded) pause wait loop. -/
inductive OpResult where
  | notImplemented
  | cancelled
  | performed
  | stillPaused
  deriving DecidableEq, Repr

/-- The pause wait loop inside `UIController._guard` (ui_controller.py
lines 66-74): while the Pause flag is set, re-check Stop (raising
`RuntimeError` if it is set), then `time.sleep(0.05)` and poll again.
`sig t` is the flag state observed at poll step `t`; the second result
component counts the 50 ms sleeps performed.  `fuel` bounds the unrolling:
the Python loop itself is unbounded while Pause stays set. -/
def guardLoop (sig : Nat → ControlSig) : Nat → Nat → OpResult × Nat
  | 0, _ => (OpResult.stillPaused, 0)
  | fuel + 1, t =>
    if (sig t).pause then
       if (sig t).stop then (OpResult.cancelled, 0)
       else
         let r := guardLoop sig fuel (t + 1)
         (r.1, r.2 + 1)
    else (OpResult.performed, 0)

/-- `UIController._guard` (ui_controller.py lines 49-74): raise if Stop is
set, then wait out Pause. -/
def uiGuard (sig : Nat → ControlSig) (fuel : Nat) : OpResult × Nat :=
  if (sig 0).stop then (OpResult.cancelled, 0)
  else guardLoop sig fuel 0

/-- A primitive input action issued to the pyautogui backend. -/
inductive UiAction where
  | click (x y : Nat) (button : String)
  | moveTo (x y : Nat)
  | dragRel (dx dy : Int)
  | scroll (clicks : Int)
  | press (key : String)
  | screenshot
  deriving DecidableEq, Repr

/-- `UIController.click` (lines 77-91): backend check first, then the uiGuard,
then the pyautogui call. -/
def clickOp (backend : Bool) (sig : Nat → ControlSig) (fuel : Nat)
    (x y : Nat) (button : String) : OpResult × List UiAction :=
  if backend = false then (OpResult.notImplemented, [])
  else
    match (uiGuard sig fuel).1 with
    | OpResult.performed => (OpResult.performed, [UiAction.click x y button])
    | r => (r, [])

/-- `UIController.move_to` (lines 93-102). -/
def moveToOp (backend : Bool) (sig : Nat → ControlSig) (fuel : Nat)
    (x y : Nat) : OpResult × List UiAction :=
  if backend = false then (OpResult.notImplemented, [])
  else
    match (uiGuard sig fuel).1 with
    | OpResult.performed => (OpResult.performed, [UiAction.moveTo x y])
    | r => (r, [])

/-- `UIController.drag_rel` (lines 104-120). -/
def dragRelOp (backend : Bool) (sig : Nat → ControlSig) (fuel : Nat)
    (dx dy : Int) : OpResult × List UiAction :=
  if backend = false then (OpResult.notImplemented, [])
  else
    match (uiGuard sig fuel).1 with
    | OpResult.performed => (OpResult.performed, [UiAction.dragRel dx dy])
    | r => (r, [])

/-- `UIController.scroll` (lines 122-136). -/
def scrollOp (backend : Bool) (sig : Nat → ControlSig) (fuel : Nat)
    (clicks : Int) : OpResult × List UiAction :=
  if backend = false then (OpResult.notImplemented, [])
  else
    match (uiGuard sig fuel).1 with
    | OpResult.performed => (OpResult.performed, [UiAction.scroll clicks])
    | r => (r, [])

/-- `UIController.press` (lines 139-145). -/
def pressOp (backend : Bool) (sig : Nat → ControlSig) (fuel : Nat)
    (key : String) : OpResult × List UiAction :=
  if backend = false then (OpResult.notImplemented, [])
  else
    match (uiGuard sig fuel).1 with
    | OpResult.performed => (OpResult.performed, [UiAction.press key])
    | r => (r, [])

/-- `UIController.screenshot` (lines 156-167). -/
def screenshotOp (backend : Bool) (sig : Nat → ControlSig) (fuel : Nat) :
    OpResult × List UiAction :=
  if backend = false then (OpResult.notImplemented, [])
  else
    match (uiGuard sig fuel).1 with
    | OpResult.performed => (OpResult.performed, [UiAction.screenshot])
    | r => (r, [])

/-- The six ActuationGateway primitives named by the specification. -/
inductive Prim where
  | moveTo
  | click
  | keyPress
  | scroll
  | dragRel
  | capture
  deriving DecidableEq, Repr

/-- Dispatch a primitive to the corresponding UIController method. -/
def runPrim (p : Prim) (backend : Bool) (sig : Nat → ControlSig) (fuel : Nat)
    (x y : Nat) (dx dy clicks : Int) (key button : String) :
    OpResult × List UiAction :=
  match p with
  | Prim.moveTo => moveToOp backend sig fuel x y
  | Prim.click => clickOp backend sig fuel x y button
  | Prim.keyPress => pressOp backend sig fuel key
  | Prim.scroll => scrollOp backend sig fuel clicks
  | Prim.dragRel => dragRelOp backend sig fuel dx dy
  | Prim.capture => screenshotOp backend sig fuel

/-- The single backend action a given primitive issues when the uiGuard passes. -/
def actionOf (p : Prim) (x y : Nat) (dx dy clicks : Int) (key button : String) :
    UiAction :=
  match p with
  | Prim.moveTo => UiAction.moveTo x y
  | Prim.click => UiAction.click x y button
  | Prim.keyPress => UiAction.press key
  | Prim.scroll => UiAction.scroll clicks
  | Prim.dragRel => UiAction.dragRel dx dy
  | Prim.capture => UiAction.screenshot

/-- If the Pause flag stays set (Stop clear) for the first `k` polls and is
clear at poll `k`, the uiGuard loop exits normally after exactly `k` sleeps. -/
theorem guardLoop_exit (sig : Nat → ControlSig) :
    ∀ k fuel t, (∀ i, i < k → (sig (t + i)).pause = true ∧ (sig (t + i)).stop = false) →
      (sig (t + k)).pause = false → k < fuel →
      guardLoop sig fuel t = (OpResult.performed, k) := by
  intro k
  induction k with
  | zero =>
    intro fuel t _ hend hfuel
    match fuel, hfuel with
    | fuel + 1, _ =>
      simp only [guardLoop]
      simp only [Nat.add_zero] at hend
      simp [hend]
  | succ k ih =>
    intro fuel t hpre hend hfuel
    match fuel, hfuel with
    | fuel + 1, hfuel =>
      have h0 := hpre 0 (Nat.succ_pos k)
      simp only [Nat.add_zero] at h0
      simp only [guardLoop, h0.1, h0.2, if_true, if_false, Bool.false_eq_true]
      have hrec := ih fuel (t + 1)
        (fun i hi => by
          have := hpre (i + 1) (Nat.succ_lt_succ hi)
          simpa [Nat.add_assoc, Nat.add_comm 1 i] using this)
        (by simpa [Nat.add_assoc, Nat.add_comm 1 k] using hend)
        (Nat.lt_of_succ_lt_succ hfuel)
      simp [hrec]

/-- If the Pause flag stays set (Stop clear) for the first `k` polls and at
poll `k` both Pause and Stop are set, the uiGuard loop cancels after `k`
sleeps. -/
theorem guardLoop_cancel (sig : Nat → ControlSig) :
    ∀ k fuel t, (∀ i, i < k → (sig (t + i)).pause = true ∧ (sig (t + i)).stop = false) →
      (sig (t + k)).pause = true → (sig (t + k)).stop = true → k < fuel →
      guardLoop sig fuel t = (OpResult.cancelled, k) := by
  intro k
  induction k with
  | zero =>
    intro fuel t _ hp hs hfuel
    match fuel, hfuel with
    | fuel + 1, _ =>
      simp only [Nat.add_zero] at hp hs
      simp [guardLoop, hp, hs]
  | succ k ih =>
    intro fuel t hpre hp hs hfuel
    match fuel, hfuel with
    | fuel + 1, hfuel =>
      have h0 := hpre 0 (Nat.succ_pos k)
      simp only [Nat.add_zero] at h0
      simp only [guardLoop, h0.1, h0.2, if_true, if_false, Bool.false_eq_true]
      have hrec := ih fuel (t + 1)
        (fun i hi => by
          have := hpre (i + 1) (Nat.succ_lt_succ hi)
          simpa [Nat.add_assoc, Nat.add_comm 1 i] using this)
        (by simpa [Nat.add_assoc, Nat.add_comm 1 k] using hp)
        (by simpa [Nat.add_assoc, Nat.add_comm 1 k] using hs)
        (Nat.lt_of_succ_lt_succ hfuel)
      simp [hrec]

/-- Claim C1: for every ActuationGateway primitive with the input backend
available: if Stop is set at call time the operation fails with Cancelled
immediately and issues no input action; if Pause is set the call blocks,
sleeping one 50 ms poll interval at a time while re-checking Stop, and then
performs its single action when Pause clears at poll `k`, or fails with
Cancelled (issuing no action) when Stop is set while still paused at poll
`k`.  The second uiGuard component counts the 50 ms sleeps. -/
theorem c1_guard_contract (p : Prim) (sig : Nat → ControlSig) (fuel k : Nat)
    (x y : Nat) (dx dy clicks : Int) (key button : String) :
    ((sig 0).stop = true →
      runPrim p true sig fuel x y dx dy clicks key button
        = (OpResult.cancelled, [])) ∧
    ((sig 0).stop = false →
      (∀ t, t < k → (sig t).pause = true ∧ (sig t).stop = false) →
      (sig k).pause = false → k < fuel →
      runPrim p true sig fuel x y dx dy clicks key button
          = (OpResult.performed, [actionOf p x y dx dy clicks key button]) ∧
        (uiGuard sig fuel).2 = k) ∧
    ((sig 0).stop = false →
      (∀ t, t < k → (sig t).pause = true ∧ (sig t).stop = false) →
      (sig k).pause = true → (sig k).stop = true → k < fuel →
      runPrim p true sig fuel x y dx dy clicks key button
          = (OpResult.cancelled, []) ∧
        (uiGuard sig fuel).2 = k) := by
  refine ⟨?_, ?_, ?_⟩
  · intro hstop
    have hg : uiGuard sig fuel = (OpResult.cancelled, 0) := by
      simp [uiGuard, hstop]
    cases p <;>
      simp [runPrim, clickOp, moveToOp, dragRelOp, scrollOp, pressOp,
        screenshotOp, hg]
  · intro hstop hpre hend hfuel
    have hloop : guardLoop sig fuel 0 = (OpResult.performed, k) :=
      guardLoop_exit sig k fuel 0
        (fun i hi => by simpa using hpre i hi) (by simpa using hend) hfuel
    have hg : uiGuard sig fuel = (OpResult.performed, k) := by
      simp [uiGuard, hstop, hloop]
    constructor
    · cases p <;>
        simp [runPrim, clickOp, moveToOp, dragRelOp, scrollOp, pressOp,
          screenshotOp, actionOf, hg]
    · simp [hg]
  · intro hstop hpre hp hs hfuel
    have hloop : guardLoop sig fuel 0 = (OpResult.cancelled, k) :=
      guardLoop_cancel sig k fuel 0
        (fun i hi => by simpa using hpre i hi) (by simpa using hp)
        (by simpa using hs) hfuel
    have hg : uiGuard sig fuel = (OpResult.cancelled, k) := by
      simp [uiGuard, hstop, hloop]
    constructor
    · cases p <;>
        simp [runPrim, clickOp, moveToOp, dragRelOp, scrollOp, pressOp,
          screenshotOp, hg]
    · simp [hg]

/-- Flag schedule for the witness: paused for the first two polls, never
stopped. -/
def sigPauseClears : Nat → ControlSig :=
  fun t => { stop := false, pause := decide (t < 2) }

/-- Flag schedule for the witness: paused throughout, Stop set from poll 2. -/
def sigStopWhilePaused : Nat → ControlSig :=
  fun t => { stop := decide (2 ≤ t), pause := true }

/-- Witness for claim C1: a click issued while paused completes with its
action once Pause clears after two polls, and is cancelled without any action
when Stop arrives at poll two while still paused. -/
theorem c1_guard_contract_witness :
    (runPrim Prim.click true sigPauseClears 9 3 4 0 0 0 "e" "left"
        = (OpResult.performed, [UiAction.click 3 4 "left"]) ∧
      (uiGuard sigPauseClears 9).2 = 2) ∧
    (runPrim Prim.click true sigStopWhilePaused 9 3 4 0 0 0 "e" "left"
        = (OpResult.cancelled, []) ∧
      (uiGuard sigStopWhilePaused 9).2 = 2) :=
  ⟨(c1_guard_contract Prim.click sigPauseClears 9 2 3 4 0 0 0 "e" "left").2.1
      (by decide) (by decide) (by decide) (by decide),
    (c1_guard_contract Prim.click sigStopWhilePaused 9 2 3 4 0 0 0 "e" "left").2.2
      (by decide) (by decide) (by decide) (by decide) (by decide)⟩

/-- Claim C10: with the input backend unavailable every primitive fails with
the backend-missing (NotImplementedError) result regardless of the Stop and
Pause flags — in particular it is not Cancelled even when Stop is set, a set
Pause flag does not block it, and no input action is issued. -/
theorem c10_backend_check_first (p : Prim) (sig : Nat → ControlSig)
    (fuel : Nat) (x y : Nat) (dx dy clicks : Int) (key button : String) :
    runPrim p false sig fuel x y dx dy clicks key button
      = (OpResult.notImplemented, []) := by
  cases p <;>
    simp [runPrim, clickOp, moveToOp, dragRelOp, scrollOp, pressOp,
      screenshotOp]

/-! ## navigation.py: Navigation.rotate_camera_until timing model

Time is modelled in milliseconds and advances by the explicit blocking
durations in the code: the rotation drag (`duration=0.3`, so 300 ms) and the
poll sleep (`time.sleep(0.5)`, so 500 ms); the `move_to` before the drag uses
`duration=0.0`, and screenshot/OCR time is not modelled.  The stop/pause
flags are assumed clear and both backends available, so no call raises. -/

/-- The while loop of `Navigation.rotate_camera_until` (navigation.py lines
89-122): while elapsed < timeout, drag (300 ms), capture, check the OCR text
(`contains i` says whether the frame captured on iteration `i` contains the
keyword), return true on a hit, else sleep 500 ms and repeat.  Returns
(found, elapsed ms on return, iterations executed). -/
def rotateLoop (contains : Nat → Bool) (timeoutMs : Nat) :
    Nat → Nat → Nat → Bool × Nat × Nat
  | 0, e, _ => (false, e, 0)
  | fuel + 1, e, i =>
    if e < timeoutMs then
      if contains i then (true, e + 300, 1)
      else
        let r := rotateLoop contains timeoutMs fuel (e + 300 + 500) (i + 1)
        (r.1, r.2.1, r.2.2 + 1)
    else (false, e, 0)

/-- `Navigation.rotate_camera_until` (navigation.py lines 72-125), started at
elapsed time zero. -/
def rotateCameraUntil (contains : Nat → Bool) (timeoutMs fuel : Nat) :
    Bool × Nat × Nat :=
  rotateLoop contains timeoutMs fuel 0 0

/-- Loop invariant for `rotateLoop` when the keyword never appears: the call
returns false, the final elapsed time is the entry time plus 800 ms per
iteration, and it lands in the window `[timeout, timeout + 800)`. -/
theorem rotateLoop_never (contains : Nat → Bool) (T : Nat)
    (hc : ∀ j, contains j = false) :
    ∀ fuel e i, T ≤ e + 800 * fuel → e < T + 800 →
      (rotateLoop contains T fuel e i).1 = false ∧
      (rotateLoop contains T fuel e i).2.1
        = e + 800 * (rotateLoop contains T fuel e i).2.2 ∧
      T ≤ (rotateLoop contains T fuel e i).2.1 ∧
      (rotateLoop contains T fuel e i).2.1 < T + 800 := by
  intro fuel
  induction fuel with
  | zero =>
    intro e i hfuel he
    have h0 : rotateLoop contains T 0 e i = (false, e, 0) := rfl
    rw [h0]
    simp only [Nat.mul_zero, Nat.add_zero] at hfuel
    exact ⟨rfl, by simp, hfuel, he⟩
  | succ fuel ih =>
    intro e i hfuel he
    by_cases hlt : e < T
    · have hrec := ih (e + 300 + 500) (i + 1)
        (by omega) (by omega)
      have h0 : rotateLoop contains T (fuel + 1) e i
          = ((rotateLoop contains T fuel (e + 300 + 500) (i + 1)).1,
             (rotateLoop contains T fuel (e + 300 + 500) (i + 1)).2.1,
             (rotateLoop contains T fuel (e + 300 + 500) (i + 1)).2.2 + 1) := by
        simp [rotateLoop, hlt, hc i]
      rw [h0]
      have h21 := hrec.2.1
      exact ⟨hrec.1, by simpa using (by omega :
          (rotateLoop contains T fuel (e + 300 + 500) (i + 1)).2.1
            = e + 800 * ((rotateLoop contains T fuel (e + 300 + 500) (i + 1)).2.2 + 1)),
        hrec.2.2.1, hrec.2.2.2⟩
    · have h0 : rotateLoop contains T (fuel + 1) e i = (false, e, 0) := by
        simp [rotateLoop, hlt]
      rw [h0]
      exact ⟨rfl, by simp, Nat.le_of_not_lt hlt, he⟩

/-- Counterexample to claim C7: with `timeout = 0.9 s` and a frame source
that never contains the keyword, the loop runs 2 iterations and returns
after an elapsed time of 1.6 s, which exceeds `timeout + pollInterval =
1.4 s`; and 2 iterations exceed `timeout / pollInterval = 1.8`.  Each
iteration costs the 0.3 s rotation drag plus the 0.5 s poll sleep, not just
the poll sleep. -/
theorem c7_counterexample :
    rotateCameraUntil (fun _ => false) 900 10 = (false, 1600, 2) ∧
    ¬(1600 ≤ 900 + 500) ∧
    ¬((2 : ℚ) ≤ 900 / 500) := by
  refine ⟨by decide, by decide, by norm_num⟩

/-- Claim C7 (amended): if no captured frame ever contains the keyword,
`rotate_camera_until` returns false — it neither raises nor loops forever —
after an elapsed time of at least `timeout` and strictly less than
`timeout + c`, where `c = 800 ms` is the cost of one iteration (0.3 s
rotation drag + 0.5 s poll sleep), performing at most `⌈timeout / c⌉`
rotate-capture-check iterations (elapsed = 800 ms × iterations). -/
theorem c7_amended (contains : Nat → Bool) (T fuel : Nat)
    (hc : ∀ j, contains j = false) (hfuel : T ≤ 800 * fuel) :
    (rotateCameraUntil contains T fuel).1 = false ∧
    T ≤ (rotateCameraUntil contains T fuel).2.1 ∧
    (rotateCameraUntil contains T fuel).2.1 < T + 800 ∧
    (rotateCameraUntil contains T fuel).2.1
      = 800 * (rotateCameraUntil contains T fuel).2.2 ∧
    (rotateCameraUntil contains T fuel).2.2 ≤ (T + 799) / 800 := by
  have h := rotateLoop_never contains T hc fuel 0 0 (by omega) (by omega)
  refine ⟨h.1, h.2.2.1, h.2.2.2, by simpa [rotateCameraUntil] using h.2.1, ?_⟩
  have h1 := h.2.1
  have h2 := h.2.2.2
  rw [Nat.le_div_iff_mul_le (by omega)]
  simp only [rotateCameraUntil] at h1 h2 ⊢
  omega

/-- Witness for claim C7 (amended) at `timeout = 2 s`: the loop returns
false after 2.4 s elapsed, within `[2.0, 2.8)`, in 3 = ⌈2000/800⌉
iterations. -/
theorem c7_amended_witness :
    (rotateCameraUntil (fun _ => false) 2000 10).1 = false ∧
    2000 ≤ (rotateCameraUntil (fun _ => false) 2000 10).2.1 ∧
    (rotateCameraUntil (fun _ => false) 2000 10).2.1 < 2000 + 800 ∧
    (rotateCameraUntil (fun _ => false) 2000 10).2.1
      = 800 * (rotateCameraUntil (fun _ => false) 2000 10).2.2 ∧
    (rotateCameraUntil (fun _ => false) 2000 10).2.2 ≤ (2000 + 799) / 800 :=
  c7_amended (fun _ => false) 2000 10 (fun _ => rfl) (by decide)

/-! ## image_recognition.py: ImageRecognition.match_template

`match_template` (image_recognition.py lines 117-146) converts the screenshot
to grayscale, calls `cv2.matchTemplate(img, tpl, cv2.TM_CCOEFF_NORMED)` and
`cv2.minMaxLoc`, and returns the location of the maximum iff the maximum
score reaches the threshold.  The external cv2 computation is embedded by
its documented semantics: the TM_CCOEFF_NORMED score at position (x, y) is
`Σ T'·I' / √(Σ T'² · Σ I'²)` with `T' = T - mean T` and `I' = patch - mean
patch`, and `minMaxLoc` scans row-major, keeping the first position whose
value strictly exceeds the current maximum.  Scores are represented exactly:
multiplying both `T'` and `I'` by the pixel count `N` leaves the score
unchanged, so we keep the integer pair `(n, e) = (Σ (N·T - ΣT)(N·I - ΣI),
(Σ (N·T - ΣT)²)·(Σ (N·I - ΣI)²))`, the score being `n / √e`, and compare
scores in exact integer/rational arithmetic. -/

/-- A grayscale image: width, height, and pixel value (0-255) at column `i`,
row `j`.  Values outside the dimensions are never inspected. -/
structure GrayImage where
  w : Nat
  h : Nat
  px : Nat → Nat → Int

/-- Sum of `f i j` over columns `i < w` and rows `j < h`. -/
def gridSum (w h : Nat) (f : Nat → Nat → Int) : Int :=
  ∑ j ∈ Finset.range h, ∑ i ∈ Finset.range w, f i j

/-- Number of template pixels. -/
def nPix (t : GrayImage) : Int := (t.w * t.h : Nat)

/-- Sum of all template pixels. -/
def tplSum (t : GrayImage) : Int := gridSum t.w t.h t.px

/-- Sum of the frame patch of template size at (x, y). -/
def patchSum (f t : GrayImage) (x y : Nat) : Int :=
  gridSum t.w t.h (fun i j => f.px (x + i) (y + j))

/-- `N` times the mean-centred template pixel. -/
def tc (t : GrayImage) (i j : Nat) : Int := nPix t * t.px i j - tplSum t

/-- `N` times the mean-centred patch pixel at offset (i, j) of position
(x, y). -/
def ic (f t : GrayImage) (x y i j : Nat) : Int :=
  nPix t * f.px (x + i) (y + j) - patchSum f t x y

/-- Numerator of the (scaled) TM_CCOEFF_NORMED score at (x, y). -/
def numAt (f t : GrayImage) (x y : Nat) : Int :=
  gridSum t.w t.h (fun i j => tc t i j * ic f t x y i j)

/-- Scaled template variance `Σ (N·T - ΣT)²`. -/
def dT (t : GrayImage) : Int := gridSum t.w t.h (fun i j => tc t i j ^ 2)

/-- Scaled patch variance at (x, y). -/
def dI (f t : GrayImage) (x y : Nat) : Int :=
  gridSum t.w t.h (fun i j => ic f t x y i j ^ 2)

/-- Denominator square `e = dT · dI` of the score at (x, y): the score is
`n / √e` (taken as 0 when `e = 0`, matching `0 / 0 = 0`). -/
def denAt (f t : GrayImage) (x y : Nat) : Int := dT t * dI f t x y

/-- Decide `n₁/√e₁ > n₂/√e₂` in exact arithmetic (`eᵢ ≥ 0`; a score with
`e = 0` is 0 since then `n = 0`). -/
def scoreGT (n1 e1 n2 e2 : Int) : Bool :=
  if e1 = 0 then (if e2 = 0 then false else decide (n2 < 0))
  else if e2 = 0 then decide (0 < n1)
  else if 0 ≤ n1 then
    (if n2 < 0 then true else decide (n2 ^ 2 * e1 < n1 ^ 2 * e2))
  else
    (if 0 ≤ n2 then false else decide (n1 ^ 2 * e2 < n2 ^ 2 * e1))

/-- Decide `n/√e ≥ θ` in exact arithmetic: with `θ = θ.num / θ.den`
(`θ.den > 0`), `n/√e ≥ θ` iff `θ.num ≤ 0 ∧ (0 ≤ n ∨ n²·den² ≤ num²·e)` or
`θ.num > 0 ∧ 0 ≤ n ∧ num²·e ≤ n²·den²`. -/
def scoreGeThr (n e : Int) (θ : ℚ) : Bool :=
  if e = 0 then decide (θ.num ≤ 0)
  else if θ.num ≤ 0 then
    (decide (0 ≤ n) || decide (n ^ 2 * (θ.den : Int) ^ 2 ≤ θ.num ^ 2 * e))
  else (decide (0 ≤ n) && decide (θ.num ^ 2 * e ≤ n ^ 2 * (θ.den : Int) ^ 2))

/-- Candidate match positions, row-major (the result grid of
`cv2.matchTemplate`); empty if the template does not fit the frame. -/
def positions (f t : GrayImage) : List (Nat × Nat) :=
  if t.w ≤ f.w ∧ t.h ≤ f.h then
    (List.range (f.h - t.h + 1)).flatMap
      (fun y => (List.range (f.w - t.w + 1)).map (fun x => (x, y)))
  else []

/-- One step of the `cv2.minMaxLoc` maximum scan: the candidate replaces the
current best only if its score is strictly greater. -/
def betterPos (f t : GrayImage) (best q : Nat × Nat) : Nat × Nat :=
  if scoreGT (numAt f t q.1 q.2) (denAt f t q.1 q.2)
      (numAt f t best.1 best.2) (denAt f t best.1 best.2) then q else best

/-- Location of the maximal score, first in row-major scan order on ties
(`cv2.minMaxLoc`). -/
def bestLoc (f t : GrayImage) : Option (Nat × Nat) :=
  match positions f t with
  | [] => none
  | p :: ps => some (ps.foldl (betterPos f t) p)

/-- `ImageRecognition.match_template` (image_recognition.py lines 117-146):
return the best-scoring location if its score reaches the threshold, else
`None`. -/
def matchTemplate (f t : GrayImage) (θ : ℚ) : Option (Nat × Nat) :=
  match bestLoc f t with
  | none => none
  | some loc =>
    if scoreGeThr (numAt f t loc.1 loc.2) (denAt f t loc.1 loc.2) θ then
      some loc
    else none

/-- The frame contains an exact, unscaled copy of the template at (x, y). -/
def copyAt (f t : GrayImage) (x y : Nat) : Prop :=
  x + t.w ≤ f.w ∧ y + t.h ≤ f.h ∧
    ∀ i, i < t.w → ∀ j, j < t.h → f.px (x + i) (y + j) = t.px i j

instance (f t : GrayImage) (x y : Nat) : Decidable (copyAt f t x y) := by
  unfold copyAt
  infer_instance

/-- Rewrite a grid sum as a sum over the product finset. -/
theorem gridSum_eq_prod (w h : Nat) (f : Nat → Nat → Int) :
    gridSum w h f = ∑ p ∈ Finset.range h ×ˢ Finset.range w, f p.2 p.1 := by
  rw [gridSum, Finset.sum_product]

/-- At a copy position the patch sums to the template sum. -/
theorem patchSum_copy (f t : GrayImage) (x y : Nat) (h : copyAt f t x y) :
    patchSum f t x y = tplSum t := by
  unfold patchSum tplSum gridSum
  refine Finset.sum_congr rfl fun j hj => Finset.sum_congr rfl fun i hi => ?_
  exact h.2.2 i (Finset.mem_range.mp hi) j (Finset.mem_range.mp hj)

/-- At a copy position the centred patch pixels equal the centred template
pixels. -/
theorem ic_copy (f t : GrayImage) (x y : Nat) (h : copyAt f t x y) :
    ∀ i, i < t.w → ∀ j, j < t.h → ic f t x y i j = tc t i j := by
  intro i hi j hj
  unfold ic tc
  rw [patchSum_copy f t x y h, h.2.2 i hi j hj]

/-- At a copy position the score numerator equals `dT`. -/
theorem numAt_copy (f t : GrayImage) (x y : Nat) (h : copyAt f t x y) :
    numAt f t x y = dT t := by
  unfold numAt dT gridSum
  refine Finset.sum_congr rfl fun j hj => Finset.sum_congr rfl fun i hi => ?_
  show tc t i j * ic f t x y i j = tc t i j ^ 2
  rw [ic_copy f t x y h i (Finset.mem_range.mp hi) j (Finset.mem_range.mp hj),
    sq]

/-- At a copy position the patch variance equals the template variance. -/
theorem dI_copy (f t : GrayImage) (x y : Nat) (h : copyAt f t x y) :
    dI f t x y = dT t := by
  unfold dI dT gridSum
  refine Finset.sum_congr rfl fun j hj => Finset.sum_congr rfl fun i hi => ?_
  show ic f t x y i j ^ 2 = tc t i j ^ 2
  rw [ic_copy f t x y h i (Finset.mem_range.mp hi) j (Finset.mem_range.mp hj)]

/-- Template variance is nonnegative. -/
theorem dT_nonneg (t : GrayImage) : 0 ≤ dT t := by
  unfold dT gridSum
  exact Finset.sum_nonneg fun j _ => Finset.sum_nonneg fun i _ => sq_nonneg _

/-- Patch variance is nonnegative. -/
theorem dI_nonneg (f t : GrayImage) (x y : Nat) : 0 ≤ dI f t x y := by
  unfold dI gridSum
  exact Finset.sum_nonneg fun j _ => Finset.sum_nonneg fun i _ => sq_nonneg _

/-- Cauchy-Schwarz for the score: `n² ≤ dT · dI` at every position, i.e.
every TM_CCOEFF_NORMED score lies in [-1, 1]. -/
theorem numAt_sq_le (f t : GrayImage) (x y : Nat) :
    numAt f t x y ^ 2 ≤ dT t * dI f t x y := by
  have hn := gridSum_eq_prod t.w t.h (fun i j => tc t i j * ic f t x y i j)
  have hT := gridSum_eq_prod t.w t.h (fun i j => tc t i j ^ 2)
  have hI := gridSum_eq_prod t.w t.h (fun i j => ic f t x y i j ^ 2)
  unfold numAt dT dI
  rw [hn, hT, hI]
  exact Finset.sum_mul_sq_le_sq_mul_sq _ _ _

/-- `scoreGT` is irreflexive. -/
theorem scoreGT_irrefl (n e : Int) : scoreGT n e n e = false := by
  unfold scoreGT
  split_ifs <;> first | rfl | omega | simp

/-- `scoreGT` is asymmetric. -/
theorem scoreGT_asymm (n1 e1 n2 e2 : Int)
    (h : scoreGT n1 e1 n2 e2 = true) : scoreGT n2 e2 n1 e1 = false := by
  unfold scoreGT at h ⊢
  split_ifs at h ⊢ <;> simp_all <;> linarith

/-- Position `a` strictly out-scores position `b`. -/
def beatsB (f t : GrayImage) (a b : Nat × Nat) : Bool :=
  scoreGT (numAt f t a.1 a.2) (denAt f t a.1 a.2)
    (numAt f t b.1 b.2) (denAt f t b.1 b.2)

/-- `betterPos` expressed through `beatsB`. -/
theorem betterPos_eq (f t : GrayImage) (b q : Nat × Nat) :
    betterPos f t b q = if beatsB f t q b then q else b := rfl

/-- At a copy position the denominator is `dT²`. -/
theorem denAt_copy (f t : GrayImage) (x y : Nat) (h : copyAt f t x y) :
    denAt f t x y = dT t * dT t := by
  unfold denAt
  rw [dI_copy f t x y h]

/-- No position strictly out-scores an exact-copy position: by
Cauchy-Schwarz every score is at most 1, and the copy position scores 1
(or every score is 0 when the template is constant). -/
theorem copy_beats_all (f t : GrayImage) (x y : Nat) (hcopy : copyAt f t x y) :
    ∀ q ∈ positions f t,
      scoreGT (numAt f t q.1 q.2) (denAt f t q.1 q.2)
        (numAt f t x y) (denAt f t x y) = false := by
  intro q _
  rw [numAt_copy f t x y hcopy, denAt_copy f t x y hcopy]
  have hCS := numAt_sq_le f t q.1 q.2
  have hdT := dT_nonneg t
  have hdI := dI_nonneg f t q.1 q.2
  have hd : denAt f t q.1 q.2 = dT t * dI f t q.1 q.2 := rfl
  by_cases hD : dT t = 0
  · have he1 : denAt f t q.1 q.2 = 0 := by rw [hd, hD, zero_mul]
    rw [he1, hD]
    simp [scoreGT]
  · by_cases hI0 : dI f t q.1 q.2 = 0
    · have he1 : denAt f t q.1 q.2 = 0 := by rw [hd, hI0, mul_zero]
      rw [he1]
      unfold scoreGT
      rw [if_pos rfl, if_neg (mul_ne_zero hD hD)]
      exact decide_eq_false (not_lt.mpr hdT)
    · have he1 : denAt f t q.1 q.2 ≠ 0 := by
        rw [hd]
        exact mul_ne_zero hD hI0
      unfold scoreGT
      rw [if_neg he1, if_neg (mul_ne_zero hD hD)]
      by_cases hn1 : 0 ≤ numAt f t q.1 q.2
      · rw [if_pos hn1, if_neg (not_lt.mpr hdT)]
        refine decide_eq_false (not_lt.mpr ?_)
        rw [hd]
        nlinarith [mul_le_mul_of_nonneg_right hCS (mul_nonneg hdT hdT)]
      · rw [if_neg hn1, if_pos hdT]

/-- A non-constant template scores 1 at its copy position, which passes any
threshold at most 1. -/
theorem copy_score_passes (t : GrayImage) (hdT : dT t ≠ 0) (θ : ℚ)
    (hθ : θ ≤ 1) : scoreGeThr (dT t) (dT t * dT t) θ = true := by
  have hD := dT_nonneg t
  unfold scoreGeThr
  rw [if_neg (mul_ne_zero hdT hdT)]
  by_cases hθ0 : θ.num ≤ 0
  · rw [if_pos hθ0]
    simp [hD]
  · rw [if_neg hθ0]
    have hnum : 0 < θ.num := lt_of_not_ge hθ0
    have hdenq : (0 : ℚ) < (θ.den : ℚ) := by
      exact_mod_cast θ.den_pos
    have hnd : θ.num ≤ (θ.den : Int) := by
      have h1 : θ * (θ.den : ℚ) ≤ 1 * (θ.den : ℚ) :=
        mul_le_mul_of_nonneg_right hθ (le_of_lt hdenq)
      rw [one_mul] at h1
      have h2 : θ * (θ.den : ℚ) = (θ.num : ℚ) := by
        nth_rewrite 1 [← Rat.num_div_den θ]
        exact div_mul_cancel₀ _ (ne_of_gt hdenq)
      rw [h2] at h1
      exact_mod_cast h1
    simp only [Bool.and_eq_true, decide_eq_true_eq]
    refine ⟨hD, ?_⟩
    have hnum2 : θ.num ^ 2 ≤ (θ.den : Int) ^ 2 := by nlinarith
    nlinarith [mul_le_mul_of_nonneg_right hnum2 (mul_nonneg hD hD)]

/-- If `m` strictly out-scores every other relevant position, the
`minMaxLoc` fold lands on `m`. -/
theorem foldl_better_eq (f t : GrayImage) (m : Nat × Nat) :
    ∀ (l : List (Nat × Nat)) (b : Nat × Nat),
      (∀ q ∈ l, q ≠ m → beatsB f t m q = true) →
      (b ≠ m → beatsB f t m b = true) →
      (m ∈ l ∨ b = m) → List.foldl (betterPos f t) b l = m := by
  intro l
  induction l with
  | nil =>
    intro b _ _ hm
    rcases hm with h | h
    · cases h
    · simpa using h
  | cons q tl ih =>
    intro b hl hb hm
    have hq : q ≠ m → beatsB f t m q = true :=
      fun h => hl q (List.mem_cons_self q tl) h
    have hstep : List.foldl (betterPos f t) b (q :: tl)
        = List.foldl (betterPos f t) (betterPos f t b q) tl := rfl
    have hbnew : betterPos f t b q ≠ m → beatsB f t m (betterPos f t b q) = true := by
      rw [betterPos_eq]
      by_cases hc : beatsB f t q b = true
      · rw [if_pos hc]
        exact hq
      · rw [if_neg hc]
        exact hb
    have hmnew : m ∈ tl ∨ betterPos f t b q = m := by
      rcases hm with hmem | hbm
      · rcases List.mem_cons.mp hmem with hqm | htl
        · right
          rw [betterPos_eq]
          by_cases hbmm : b = m
          · by_cases hc : beatsB f t q b = true
            · rw [if_pos hc, ← hqm]
            · rw [if_neg hc]
              exact hbmm
          · have hqb : beatsB f t q b = true := by
              rw [← hqm]
              exact hb hbmm
            rw [if_pos hqb, ← hqm]
        · left
          exact htl
      · right
        rw [betterPos_eq]
        by_cases hqm : q = m
        · rw [hqm, hbm]
          split <;> rfl
        · have hqmb : beatsB f t q b = false := by
            rw [hbm]
            exact scoreGT_asymm _ _ _ _ (hq hqm)
          rw [hqmb]
          simp [hbm]
    rw [hstep]
    exact ih (betterPos f t b q)
      (fun r hr h => hl r (List.mem_cons_of_mem q hr) h) hbnew hmnew

/-- An exact-copy position is among the candidate positions. -/
theorem copy_mem_positions (f t : GrayImage) (x y : Nat)
    (hcopy : copyAt f t x y) : (x, y) ∈ positions f t := by
  obtain ⟨hw, hh, _⟩ := hcopy
  unfold positions
  rw [if_pos ⟨by omega, by omega⟩]
  simp only [List.mem_flatMap, List.mem_map, List.mem_range]
  exact ⟨y, by omega, x, by omega, rfl⟩

/-- Claim C6 (amended): for every frame containing an exact, unscaled copy
of a non-constant template at (x, y): the copy position is a candidate and
no position strictly out-scores it (its TM_CCOEFF_NORMED score is the
maximal score 1, by Cauchy-Schwarz); and provided the copy position strictly
out-scores every other candidate — `minMaxLoc` keeps the first position in
row-major scan order on ties, so a frame with a second tying position may
return that one instead — `match` returns exactly (x, y) whenever the
threshold is ≤ 1.0, and returns none whenever the threshold is set above the
true match score.  The result is a pure function of its inputs, hence
deterministic. -/
theorem c6_match_exact_copy (f t : GrayImage) (θ : ℚ) (x y : Nat)
    (hcopy : copyAt f t x y) (hdT : dT t ≠ 0) :
    (x, y) ∈ positions f t ∧
    (∀ q ∈ positions f t,
      scoreGT (numAt f t q.1 q.2) (denAt f t q.1 q.2)
        (numAt f t x y) (denAt f t x y) = false) ∧
    ((∀ q ∈ positions f t, q ≠ (x, y) →
        scoreGT (numAt f t x y) (denAt f t x y)
          (numAt f t q.1 q.2) (denAt f t q.1 q.2) = true) →
      bestLoc f t = some (x, y) ∧
      (θ ≤ 1 → matchTemplate f t θ = some (x, y)) ∧
      (scoreGeThr (numAt f t x y) (denAt f t x y) θ = false →
        matchTemplate f t θ = none)) := by
  have hmem := copy_mem_positions f t x y hcopy
  refine ⟨hmem, copy_beats_all f t x y hcopy, ?_⟩
  intro hstrict
  have hbest : bestLoc f t = some (x, y) := by
    unfold bestLoc
    cases hpos : positions f t with
    | nil =>
      rw [hpos] at hmem
      cases hmem
    | cons p ps =>
      have hfold : List.foldl (betterPos f t) p ps = (x, y) := by
        apply foldl_better_eq f t (x, y) ps p
        · intro r hr h
          exact hstrict r (by rw [hpos]; exact List.mem_cons_of_mem p hr) h
        · intro h
          exact hstrict p (by rw [hpos]; exact List.mem_cons_self p ps) h
        · rw [hpos] at hmem
          rcases List.mem_cons.mp hmem with h | h
          · right
            exact h.symm
          · left
            exact h
      show some (List.foldl (betterPos f t) p ps) = some (x, y)
      rw [hfold]
  refine ⟨hbest, ?_, ?_⟩
  · intro hθ
    have hpass : scoreGeThr (numAt f t x y) (denAt f t x y) θ = true := by
      rw [numAt_copy f t x y hcopy, denAt_copy f t x y hcopy]
      exact copy_score_passes t hdT θ hθ
    unfold matchTemplate
    rw [hbest]
    simp [hpass]
  · intro hfail
    unfold matchTemplate
    rw [hbest]
    simp [hfail]

/-- The 2-by-1 template with pixels (0, 255). -/
def tplC6 : GrayImage := ⟨2, 1, fun i _ => if i = 0 then 0 else 255⟩

/-- A 4-by-1 frame with pixels (0, 255, 0, 255): it contains exact copies of
`tplC6` at (0, 0) and at (2, 0). -/
def frameC6 : GrayImage := ⟨4, 1, fun i _ => if i % 2 = 0 then 0 else 255⟩

/-- A 4-by-1 frame with pixels (0, 255, 0, 0): exactly one copy of `tplC6`,
at (0, 0), which strictly out-scores every other position. -/
def frameC6w : GrayImage := ⟨4, 1, fun i _ => if i = 1 then 255 else 0⟩

/-- The threshold 0.9 as an explicit normalized rational (so that the proof
checker can evaluate comparisons on it without rational normalization). -/
def thr910 : ℚ := ⟨9, 10, by norm_num, by norm_num⟩

/-- Counterexample to claim C6 as stated: `frameC6` contains an exact,
unscaled copy of `tplC6` at (2, 0) and the threshold 0.9 is ≤ 1.0, yet
`match` returns (0, 0) — the first of the two tying maximal positions in
scan order — not (2, 0). -/
theorem c6_counterexample :
    copyAt frameC6 tplC6 2 0 ∧ thr910 ≤ 1 ∧
    matchTemplate frameC6 tplC6 thr910 = some (0, 0) ∧
    matchTemplate frameC6 tplC6 thr910 ≠ some (2, 0) := by
  refine ⟨by decide, by decide, by decide, by decide⟩

/-- Witness for claim C6 (amended): on `frameC6w`, whose unique copy of
`tplC6` sits at (0, 0) and strictly out-scores every other position, `match`
with threshold 0.9 returns (0, 0). -/
theorem c6_match_exact_copy_witness :
    bestLoc frameC6w tplC6 = some (0, 0) ∧
    matchTemplate frameC6w tplC6 thr910 = some (0, 0) :=
  have h := c6_match_exact_copy frameC6w tplC6 thr910 0 0
    (by decide) (by decide)
  have h2 := h.2.2 (by decide)
  ⟨h2.1, h2.2.1 (by decide)⟩

/-! ## crafting/blacksmithing.py: the per-item crafting cycle

The cycle is modelled as a trace-producing program in the `Except` monad:
each ui/perception primitive either returns its events or raises, and every
`try/except` of the source is transcribed as a `match` on that result.  The
Stop and Pause flags are clear throughout (so ui calls raise only
`NotImplementedError`), and the outcomes of the external perception calls —
which depend on live screen content — are supplied by oracle fields of the
environment. -/

/-- Python exception kinds crossing function boundaries in the modelled
code: `notImplemented` is `NotImplementedError` (backend or perception
capability missing — the spec's PerceptionUnavailable); `runtimeErr` is
`RuntimeError` (Cancelled).  Both derive from `Exception`. -/
inductive PyExc where
  | notImplemented
  | runtimeErr
  deriving DecidableEq, Repr

/-- Observable events (backend actions and log lines) of the crafting
cycle. -/
inductive Ev where
  | warn (s : String)
  | info (s : String)
  | pressKey (k : String)
  | clickAt (x y : Nat) (button : String)
  | scrollBy (n : Int)
  | screenshotEv
  | matchAttempt
  | ocrAttempt
  | btnAttempt
  | findAttempt (grade : String)
  | rotateCamera (keyword : String) (found : Bool)
  | moveStation (name : String)
  | slotTransfer (idx : Nat)
  | sleepEv
  | selectRecipeEv
  | startCraftEv
  | collectEv
  | handleFullEv
  deriving DecidableEq, Repr

/-- gui.py `ItemConfig`: item name, grade → send-to-crusher flag, grade →
icon path, trigger name → template path.  An empty path means "not
configured". -/
structure ItemCfg where
  craftItemName : String
  gradePreferences : List (String × Bool)
  gradeIcons : List (String × String)
  triggers : List (String × String)
  deriving DecidableEq, Repr

/-- gui.py `BotConfig` (the fields the crafting cycle reads).  `BotConfig`
always has `items` and never has a `grade_icons` attribute. -/
structure BotCfg where
  items : List ItemCfg
  craftWindowRegion : Option (Nat × Nat × Nat × Nat)
  inventoryRegion : Option (Nat × Nat × Nat × Nat)
  deriving DecidableEq, Repr

/-- Runtime environment of the blacksmithing cycle: backend availability
flags, loaded-template dimensions, and the outcomes of the external
perception calls (indexed per attempt/batch where the source repeats
them). -/
structure BsEnv where
  hasPy : Bool
  hasCv2 : Bool
  hasOcr : Bool
  tplW : String → Nat
  tplH : String → Nat
  selMatch : Option (Nat × Nat)
  selOcr : Nat → Option (Nat × Nat × Nat × Nat)
  craftMatch : Option (Nat × Nat)
  craftOcr : Option (Nat × Nat × Nat × Nat)
  craftBtn : Option (Nat × Nat)
  slotMatch : Nat → Nat → Option (Nat × Nat)
  slotMean : Nat → Nat → Nat
  disFind : String → Nat → List (Nat × Nat)
  forgeFound : Bool
  crusherFound : Bool

/-- Template loading at configuration time (image_recognition.py lines
44-93 and 107-115): an empty path yields no template, and `_load_template`
raises `NotImplementedError` when cv2 is missing, which `__init__` catches,
leaving `None`. -/
def loadTemplate (hasCv2 : Bool) (path : String) : Option String :=
  if path = "" then none
  else if hasCv2 then some path else none

/-- A guarded pyautogui primitive as used from the crafting module (flags
clear): raises `NotImplementedError` iff pyautogui is missing, else issues
its action. -/
def uiAct (hasPy : Bool) (a : Ev) : Except PyExc (List Ev) :=
  if hasPy then Except.ok [a] else Except.error PyExc.notImplemented

/-- `ImageRecognition.match_template` as seen by callers (lines 137-146):
raises `NotImplementedError` when cv2 is missing, else returns the match
outcome. -/
def matchCall (hasCv2 : Bool) (res : Option (Nat × Nat)) :
    Except PyExc (Option (Nat × Nat)) :=
  if hasCv2 then Except.ok res else Except.error PyExc.notImplemented

/-- `ImageRecognition.locate_text` (lines 260-284): raises when pytesseract
is missing, else returns the first matching bounding box. -/
def locateTextCall (hasOcr : Bool) (res : Option (Nat × Nat × Nat × Nat)) :
    Except PyExc (Option (Nat × Nat × Nat × Nat)) :=
  if hasOcr then Except.ok res else Except.error PyExc.notImplemented

/-- `ImageRecognition.locate_button` (lines 148-168): raises when cv2 is
missing. -/
def locateButtonCall (hasCv2 : Bool) (res : Option (Nat × Nat)) :
    Except PyExc (Option (Nat × Nat)) :=
  if hasCv2 then Except.ok res else Except.error PyExc.notImplemented

/-- `ImageRecognition.find_items_by_template` (lines 210-229): raises when
cv2 is missing, else returns all matches in the region. -/
def findItemsCall (hasCv2 : Bool) (res : List (Nat × Nat)) :
    Except PyExc (List (Nat × Nat)) :=
  if hasCv2 then Except.ok res else Except.error PyExc.notImplemented

/-- `try: x = e \n except Exception: x = None`. -/
def tryAll {α : Type} (r : Except PyExc (Option α)) : Option α :=
  match r with
  | Except.ok v => v
  | Except.error _ => none

/-- `try/except NotImplementedError`: catches only that exception; anything
else continues to propagate. -/
def tryNI {α : Type} (r : Except PyExc α) : Except PyExc (Option α) :=
  match r with
  | Except.ok v => Except.ok (some v)
  | Except.error PyExc.notImplemented => Except.ok none
  | Except.error e => Except.error e

/-- The OCR fallback loop of `Blacksmithing.select_recipe` (blacksmithing.py
lines 127-163): up to 6 attempts; each takes a screenshot, OCR-searches the
recipe-list region (50, 250, 300, 450) for the item name, clicks a hit
(ending the loop), else scrolls the list and retries; a missing ui backend
logs a warning and breaks.  Returns (events, recipe clicked?). -/
def selOcrLoop (env : BsEnv) : Nat → Nat → Except PyExc (List Ev × Bool)
  | _, 0 => Except.ok ([], false)
  | i, n + 1 => do
    let shot ← tryNI (uiAct env.hasPy Ev.screenshotEv)
    let pre :=
      match shot with
      | some evs => evs ++ [Ev.ocrAttempt]
      | none => []
    let bbox : Option (Nat × Nat × Nat × Nat) :=
      match shot with
      | some _ => tryAll (locateTextCall env.hasOcr (env.selOcr i))
      | none => none
    match bbox with
    | some (bx, b2, bw, bh) =>
      match ← tryNI (uiAct env.hasPy
          (Ev.clickAt (50 + bx + bw / 2) (250 + b2 + bh / 2) "left")) with
      | some evs => Except.ok (pre ++ evs ++ [Ev.sleepEv], true)
      | none => Except.ok (pre ++ [Ev.warn "recipe click unavailable"], false)
    | none =>
      match ← tryNI (uiAct env.hasPy (Ev.scrollBy (-300))) with
      | some evs => do
        let r ← selOcrLoop env (i + 1) n
        Except.ok (pre ++ evs ++ [Ev.sleepEv] ++ r.1, r.2)
      | none => Except.ok (pre ++ [Ev.warn "recipe scroll unavailable"], false)

/-- Shared tail of `select_recipe`: run the OCR loop; if the recipe was not
clicked, log the could-not-locate warning (line 165). -/
def selFallback (env : BsEnv) (pre : List Ev) :
    Except PyExc (List Ev × Bool) := do
  let r ← selOcrLoop env 0 6
  if r.2 then Except.ok (pre ++ r.1, true)
  else Except.ok (pre ++ r.1 ++ [Ev.warn "recipe not found"], false)

set_option linter.unusedVariables false in
/-- `Blacksmithing.select_recipe` (blacksmithing.py lines 89-165), given the
recipe-icon trigger template that its `item_cfg` parameter resolves to
(`None` when `item_cfg` is not passed): try the vision match on the trigger
template first, then the OCR scan with scrolling.  Returns (events, recipe
clicked?). -/
def selectRecipe (env : BsEnv) (tpl : Option String) (itemName : String) :
    Except PyExc (List Ev × Bool) := do
  match tpl with
  | some tp => do
    let shot ← tryNI (uiAct env.hasPy Ev.screenshotEv)
    match shot with
    | some evs =>
      match tryAll (matchCall env.hasCv2 env.selMatch) with
      | some (px, py) =>
        match ← tryNI (uiAct env.hasPy
            (Ev.clickAt (px + env.tplW tp / 2) (py + env.tplH tp / 2)
              "left")) with
        | some evs2 =>
          Except.ok (evs ++ [Ev.matchAttempt] ++ evs2 ++ [Ev.sleepEv], true)
        | none =>
          selFallback env
            (evs ++ [Ev.matchAttempt, Ev.warn "recipe template click unavailable"])
      | none => selFallback env (evs ++ [Ev.matchAttempt])
    | none => selFallback env []
  | none => selFallback env []

/-- Strategy 1 of `Blacksmithing.start_craft` (lines 176-204): vision match
on the per-item "create" trigger template. -/
def craftTplStrategy (env : BsEnv) (item : ItemCfg) :
    Except PyExc (List Ev × Bool) := do
  match loadTemplate env.hasCv2 ((item.triggers.lookup "create").getD "") with
  | none => Except.ok ([], false)
  | some tp => do
    match ← tryNI (uiAct env.hasPy Ev.screenshotEv) with
    | none => Except.ok ([], false)
    | some evs =>
      match tryAll (matchCall env.hasCv2 env.craftMatch) with
      | none => Except.ok (evs ++ [Ev.matchAttempt], false)
      | some (px, py) =>
        match ← tryNI (uiAct env.hasPy
            (Ev.clickAt (px + env.tplW tp / 2) (py + env.tplH tp / 2)
              "left")) with
        | some evs2 => Except.ok (evs ++ [Ev.matchAttempt] ++ evs2, true)
        | none =>
          Except.ok
            (evs ++ [Ev.matchAttempt, Ev.warn "create template click unavailable"],
              false)

/-- Strategy 2 of `start_craft` (lines 205-224): OCR-locate the craft-action
label. -/
def craftOcrStrategy (env : BsEnv) : Except PyExc (List Ev × Bool) := do
  match ← tryNI (uiAct env.hasPy Ev.screenshotEv) with
  | none => Except.ok ([], false)
  | some evs =>
    match tryAll (locateTextCall env.hasOcr env.craftOcr) with
    | none => Except.ok (evs ++ [Ev.ocrAttempt], false)
    | some (bx, b2, bw, bh) =>
      match ← tryNI (uiAct env.hasPy
          (Ev.clickAt (bx + bw / 2) (b2 + bh / 2) "left")) with
      | some evs2 => Except.ok (evs ++ [Ev.ocrAttempt] ++ evs2, true)
      | none =>
        Except.ok (evs ++ [Ev.ocrAttempt, Ev.warn "create ocr click unavailable"],
          false)

/-- Strategy 3 of `start_craft` (lines 225-258): a configured fallback icon
template named by the create keyword among the item's grade icons, located
through `locate_button`.  (`BotConfig` has no `grade_icons` attribute, so
the config-level fallback of lines 241-245 contributes nothing.) -/
def craftBtnStrategy (env : BsEnv) (item : ItemCfg) :
    Except PyExc (List Ev × Bool) := do
  match ← tryNI (uiAct env.hasPy Ev.screenshotEv) with
  | none => Except.ok ([], false)
  | some evs =>
    if (item.gradeIcons.lookup "создать").getD "" = "" then
      Except.ok (evs, false)
    else
      match tryAll (locateButtonCall env.hasCv2 env.craftBtn) with
      | none => Except.ok (evs ++ [Ev.btnAttempt], false)
      | some (px, py) =>
        match ← tryNI (uiAct env.hasPy
            (Ev.clickAt (px + 10) (py + 10) "left")) with
        | some evs2 => Except.ok (evs ++ [Ev.btnAttempt] ++ evs2, true)
        | none =>
          Except.ok
            (evs ++ [Ev.btnAttempt, Ev.warn "create fallback click unavailable"],
              false)

/-- `Blacksmithing.start_craft` (blacksmithing.py lines 167-264): the
ordered fallback chain create-trigger vision match → OCR → fallback icon
template → the hardcoded keyboard shortcut. -/
def startCraft (env : BsEnv) (item : ItemCfg) : Except PyExc (List Ev) := do
  let (e1, done1) ← craftTplStrategy env item
  if done1 then Except.ok e1
  else do
    let (e2, done2) ← craftOcrStrategy env
    if done2 then Except.ok (e1 ++ e2)
    else do
      let (e3, done3) ← craftBtnStrategy env item
      if done3 then Except.ok (e1 ++ e2 ++ e3)
      else do
        match ← tryNI (uiAct env.hasPy (Ev.pressKey "c")) with
        | some e4 => Except.ok (e1 ++ e2 ++ e3 ++ e4)
        | none => Except.ok (e1 ++ e2 ++ e3 ++ [Ev.warn "no craft method"])

/-- The fixed grid of 6 output-slot centres (blacksmithing.py lines
279-298): derived 3x2 from `craft_window_region` when configured, else the
placeholder coordinates. -/
def outputSlots (cfg : BotCfg) : List (Nat × Nat) :=
  match cfg.craftWindowRegion with
  | some (left, top, width, height) =>
    (List.range 2).flatMap fun row =>
      (List.range 3).map fun col =>
        (left + col * (width / 3) + width / 3 / 2,
          top + row * (height / 2) + height / 2 / 2)
  | none =>
    [(800, 350), (850, 350), (900, 350), (800, 400), (850, 400), (900, 400)]

/-- The per-slot loop of `Blacksmithing.collect_items_from_output` (lines
308-347): right-click to transfer, capture the slot, then verify emptiness
by the empty-slot template when the item configures one (a failed match
means the item remains: set bag-full and break) or by the mean-luminance
heuristic (< 80 means occupied: set bag-full and break).  A missing ui
backend on the click warns and makes the whole call return True.  Returns
(events, return value of collect: True iff the output emptied). -/
def collectLoop (env : BsEnv) (batch : Nat) (emptyTpl : Option String) :
    List (Nat × Nat) → Nat → Except PyExc (List Ev × Bool)
  | [], _ => Except.ok ([], true)
  | (x, y) :: rest, idx => do
    match ← tryNI (uiAct env.hasPy (Ev.clickAt x y "right")) with
    | none => Except.ok ([Ev.warn "collect ui unavailable"], true)
    | some evC =>
      match ← tryNI (uiAct env.hasPy Ev.screenshotEv) with
      | none => do
        let r ← collectLoop env batch emptyTpl rest (idx + 1)
        Except.ok ([Ev.slotTransfer idx] ++ evC ++ [Ev.sleepEv] ++ r.1, r.2)
      | some evS =>
        match emptyTpl with
        | some _ =>
          match tryAll (matchCall env.hasCv2 (env.slotMatch batch idx)) with
          | none =>
            Except.ok
              ([Ev.slotTransfer idx] ++ evC ++ [Ev.sleepEv] ++ evS
                ++ [Ev.matchAttempt], false)
          | some _ => do
            let r ← collectLoop env batch emptyTpl rest (idx + 1)
            Except.ok
              ([Ev.slotTransfer idx] ++ evC ++ [Ev.sleepEv] ++ evS
                ++ [Ev.matchAttempt] ++ r.1, r.2)
        | none =>
          if env.slotMean batch idx < 80 then
            Except.ok
              ([Ev.slotTransfer idx] ++ evC ++ [Ev.sleepEv] ++ evS, false)
          else do
            let r ← collectLoop env batch emptyTpl rest (idx + 1)
            Except.ok
              ([Ev.slotTransfer idx] ++ evC ++ [Ev.sleepEv] ++ evS ++ r.1,
                r.2)

/-- `Blacksmithing.collect_items_from_output` (lines 266-347). -/
def collectItems (env : BsEnv) (cfg : BotCfg) (item : ItemCfg) (batch : Nat) :
    Except PyExc (List Ev × Bool) :=
  collectLoop env batch
    (loadTemplate env.hasCv2 ((item.triggers.lookup "empty_slot").getD ""))
    (outputSlots cfg) 0

/-- Grade-template resolution in `Blacksmithing.dismantle_items` (lines
428-441): the per-item loaded grade icon, else the merged `_grade_templates`
fallback, which image_recognition.py lines 58-60 copies from the first
configured item. -/
def gradeTemplate (env : BsEnv) (cfg : BotCfg) (item : ItemCfg)
    (grade : String) : Option String :=
  match loadTemplate env.hasCv2 ((item.gradeIcons.lookup grade).getD "") with
  | some p => some p
  | none =>
    match cfg.items.head? with
    | some first =>
      loadTemplate env.hasCv2 ((first.gradeIcons.lookup grade).getD "")
    | none => none

/-- The three scan attempts for one grade in `dismantle_items` (lines
443-472): capture (a missing backend aborts the whole dismantle call),
`find_items_by_template` — called with no surrounding try/except — then
either scroll and retry when nothing was found, or right-click each found
item (the confirming context-menu selection is skipped in the source).
Returns (events, abort-the-whole-call?). -/
def gradeAttempts (env : BsEnv) (grade : String) (tp : String) :
    Nat → Nat → Except PyExc (List Ev × Bool)
  | 0, _ => Except.ok ([], false)
  | n + 1, i => do
    match ← tryNI (uiAct env.hasPy Ev.screenshotEv) with
    | none => Except.ok ([Ev.warn "cannot screenshot: abort dismantle"], true)
    | some evS => do
      let ps ← findItemsCall env.hasCv2 (env.disFind grade i)
      if ps.isEmpty then
        match ← tryNI (uiAct env.hasPy (Ev.scrollBy (-500))) with
        | none =>
          Except.ok (evS ++ [Ev.findAttempt grade, Ev.warn "cannot scroll inventory"],
            false)
        | some evSc => do
          let r ← gradeAttempts env grade tp n (i + 1)
          Except.ok
            (evS ++ [Ev.findAttempt grade] ++ evSc ++ [Ev.sleepEv] ++ r.1, r.2)
      else do
        let clicks := ps.flatMap fun p =>
          if env.hasPy then
            [Ev.clickAt (p.1 + env.tplW tp / 2) (p.2 + env.tplH tp / 2) "right",
              Ev.sleepEv]
          else [Ev.warn "cannot click dismantle"]
        let r ← gradeAttempts env grade tp n (i + 1)
        Except.ok (evS ++ [Ev.findAttempt grade] ++ clicks ++ r.1, r.2)

/-- The per-grade loop of `dismantle_items` (lines 428-473): grades whose
send-to-crusher flag is false are skipped; a grade with no loaded template
logs a warning and is skipped; a screenshot failure aborts the whole call
(skipping the final log line). -/
def dismantleGrades (env : BsEnv) (cfg : BotCfg) (item : ItemCfg) :
    List (String × Bool) → Except PyExc (List Ev)
  | [] => Except.ok [Ev.info "dismantle finished"]
  | (grade, send) :: rest =>
    if send = false then dismantleGrades env cfg item rest
    else
      match gradeTemplate env cfg item grade with
      | none => do
        let r ← dismantleGrades env cfg item rest
        Except.ok ([Ev.warn ("no template for grade " ++ grade)] ++ r)
      | some tp => do
        let (evs, abort) ← gradeAttempts env grade tp 3 0
        if abort then Except.ok evs
        else do
          let r ← dismantleGrades env cfg item rest
          Except.ok (evs ++ r)

/-- `Blacksmithing.dismantle_items` (blacksmithing.py lines 395-473). -/
def dismantleItems (env : BsEnv) (cfg : BotCfg) (item : ItemCfg) :
    Except PyExc (List Ev) :=
  dismantleGrades env cfg item item.gradePreferences

/-- A best-effort key press: `try: press(k) except NotImplementedError:
pass`. -/
def pressTryPass (env : BsEnv) (k : String) : Except PyExc (List Ev) :=
  match tryNI (uiAct env.hasPy (Ev.pressKey k)) with
  | Except.ok (some evs) => Except.ok evs
  | Except.ok none => Except.ok []
  | Except.error e => Except.error e

/-- `Blacksmithing.handle_full_inventory` (blacksmithing.py lines 349-393):
close windows (best-effort Esc), rotate to the crusher (the rotation is
wrapped in `except Exception`, so a failure only clears the found flag); on
failure log and return; on success interact (E), open the inventory (I),
dismantle, and close windows. -/
def handleFullInventory (env : BsEnv) (cfg : BotCfg) (item : ItemCfg) :
    Except PyExc (List Ev) := do
  let e1 ← pressTryPass env "esc"
  let evRot := [Ev.rotateCamera "дробилка" env.crusherFound]
  if env.crusherFound = false then
    Except.ok (e1 ++ evRot ++ [Ev.warn "crusher not found: skip dismantling"])
  else do
    let e2 ← pressTryPass env "e"
    let e3 ← pressTryPass env "i"
    let e4 ← dismantleItems env cfg item
    let e5 ← pressTryPass env "esc"
    Except.ok (e1 ++ evRot ++ e2 ++ [Ev.sleepEv] ++ e3 ++ [Ev.sleepEv] ++ e4 ++ e5)

/-- The collect/craft while-loop of `Blacksmithing.run_cycle` (blacksmithing
.py lines 64-73): collect the output; when it emptied, sleep and craft the
next batch; when items remained, run `handle_full_inventory` and **break**
(ending this item's cycle).  `fuel` bounds unrolling of the unbounded
`while True`. -/
def craftLoop (env : BsEnv) (cfg : BotCfg) (item : ItemCfg) :
    Nat → Nat → Except PyExc (List Ev)
  | 0, _ => Except.ok []
  | fuel + 1, batch => do
    let (evC, emptied) ← collectItems env cfg item batch
    if emptied then do
      let evS ← startCraft env item
      let r ← craftLoop env cfg item fuel (batch + 1)
      Except.ok ([Ev.collectEv] ++ evC ++ [Ev.sleepEv, Ev.startCraftEv] ++ evS ++ r)
    else do
      let evH ← handleFullInventory env cfg item
      Except.ok ([Ev.collectEv] ++ evC ++ [Ev.handleFullEv] ++ evH)

/-- One item of `Blacksmithing.run_cycle` (blacksmithing.py lines 40-73):
navigate and rotate to the forge (skip the item on failure), open the
interface, select the recipe — the source calls `self.select_recipe(name)`
at line 61 *without* `item_cfg`, so the trigger-template argument is `none`
— then craft and run the collect loop. -/
def runItem (env : BsEnv) (cfg : BotCfg) (item : ItemCfg) (fuel : Nat) :
    Except PyExc (List Ev) := do
  let pre := [Ev.moveStation "forge", Ev.rotateCamera "кузнечное горнило" env.forgeFound]
  if env.forgeFound = false then
    Except.ok (pre ++ [Ev.warn "forge not found: skip item"])
  else do
    let eOpen ← (match ← tryNI (uiAct env.hasPy (Ev.pressKey "e")) with
      | some evs => pure evs
      | none => pure [Ev.warn "cannot open interface"])
    let selR ← selectRecipe env none item.craftItemName
    let eCraft ← startCraft env item
    let eLoop ← craftLoop env cfg item fuel 0
    Except.ok (pre ++ eOpen ++ [Ev.selectRecipeEv] ++ selR.1
      ++ [Ev.startCraftEv] ++ eCraft ++ eLoop)

/-- Events of an `Except` result (empty on an escaped exception). -/
def evsOf (r : Except PyExc (List Ev)) : List Ev :=
  match r with
  | Except.ok l => l
  | Except.error _ => []

/-- Result of `collect_items_from_output`, defaulting on an escaped
exception. -/
def collectRes (env : BsEnv) (cfg : BotCfg) (item : ItemCfg) (batch : Nat) :
    List Ev × Bool :=
  match collectItems env cfg item batch with
  | Except.ok r => r
  | Except.error _ => ([], true)

/-- Result of `select_recipe`, defaulting on an escaped exception. -/
def selRes (env : BsEnv) (tpl : Option String) (itemName : String) :
    List Ev × Bool :=
  match selectRecipe env tpl itemName with
  | Except.ok r => r
  | Except.error _ => ([], false)

/-- The sublist of slot-transfer events, in order. -/
def slotsAttempted (l : List Ev) : List Ev :=
  l.filter fun e =>
    match e with
    | Ev.slotTransfer _ => true
    | _ => false

/-- Occurrences of one event. -/
def countEv (e : Ev) (l : List Ev) : Nat := l.count e

/-- The suffix of a trace strictly after the first occurrence of `e`. -/
def afterFirst (e : Ev) (l : List Ev) : List Ev :=
  (l.dropWhile fun x => x != e).drop 1

/-- `Except.ok` bind reduction for the cycle monad. -/
theorem pyBindOk {α β : Type} (x : α) (f : α → Except PyExc β) :
    (Except.ok x >>= f) = f x := rfl

instance exceptDecEq {ε α : Type} [DecidableEq ε] [DecidableEq α] :
    DecidableEq (Except ε α) := fun x y =>
  match x, y with
  | Except.ok a, Except.ok b =>
    if h : a = b then isTrue (h ▸ rfl) else isFalse fun hc => h (by injection hc)
  | Except.error a, Except.error b =>
    if h : a = b then isTrue (h ▸ rfl) else isFalse fun hc => h (by injection hc)
  | Except.ok _, Except.error _ => isFalse fun hc => Except.noConfusion hc
  | Except.error _, Except.ok _ => isFalse fun hc => Except.noConfusion hc

/-- A baseline environment: all backends available, generic perception
outcomes. -/
def baseEnv : BsEnv :=
  { hasPy := true
    hasCv2 := true
    hasOcr := true
    tplW := fun _ => 20
    tplH := fun _ => 20
    selMatch := none
    selOcr := fun _ => none
    craftMatch := none
    craftOcr := none
    craftBtn := none
    slotMatch := fun _ _ => some (0, 0)
    slotMean := fun _ _ => 200
    disFind := fun _ _ => []
    forgeFound := true
    crusherFound := true }

/-- A concrete item: one grade sent to the crusher, an empty-slot trigger
template configured. -/
def itemBs : ItemCfg :=
  { craftItemName := "Простой топор"
    gradePreferences := [("зелёный", true)]
    gradeIcons := [("зелёный", "green.png")]
    triggers := [("item", ""), ("create", ""), ("empty_slot", "es.png")] }

/-- The configuration holding `itemBs`, with placeholder regions. -/
def cfgBs : BotCfg :=
  { items := [itemBs], craftWindowRegion := none, inventoryRegion := none }

/-- Environment for the C2 scenario: the first collect finds every slot
still occupied (empty-slot template never matches), crusher found. -/
def envC2 : BsEnv := { baseEnv with slotMatch := fun _ _ => none }

/-- Counterexample to claim C2: in a cycle whose first collect signals a
full inventory, the dismantle routine runs (three scan attempts for the
enabled grade), but afterwards the item's cycle **ends**: no craft is ever
started again (one startCraft, from before the collect loop, and none after
the InventoryFull handling), and no further collect happens — the loop
breaks instead of transitioning back to Crafting, despite remaining fuel. -/
theorem c2_counterexample :
    countEv Ev.handleFullEv (evsOf (runItem envC2 cfgBs itemBs 5)) = 1 ∧
    countEv (Ev.findAttempt "зелёный") (evsOf (runItem envC2 cfgBs itemBs 5)) = 3 ∧
    countEv Ev.startCraftEv (evsOf (runItem envC2 cfgBs itemBs 5)) = 1 ∧
    countEv Ev.startCraftEv
      (afterFirst Ev.handleFullEv (evsOf (runItem envC2 cfgBs itemBs 5))) = 0 ∧
    countEv Ev.collectEv
      (afterFirst Ev.handleFullEv (evsOf (runItem envC2 cfgBs itemBs 5))) = 0 := by
  decide

/-- Claim C2 (amended): whenever the collect step signals a full inventory,
the cycle invokes `handle_full_inventory` (which runs the dismantle routine
when the crusher is acquired) and, after that routine returns, the item's
cycle **ends**: the loop breaks, its trace being exactly the collect events,
the InventoryFull marker and the handler's events, with nothing after them
regardless of remaining fuel.  There is no InventoryFull → Crafting
transition; production for the item resumes only on the next `run_cycle`
invocation. -/
theorem c2_inventory_full_breaks (env : BsEnv) (cfg : BotCfg) (item : ItemCfg)
    (fuel batch : Nat) (l evH : List Ev)
    (hfail : collectItems env cfg item batch = Except.ok (l, false))
    (hH : handleFullInventory env cfg item = Except.ok evH) :
    craftLoop env cfg item (fuel + 1) batch
      = Except.ok ([Ev.collectEv] ++ l ++ [Ev.handleFullEv] ++ evH) := by
  simp [craftLoop, hfail, hH, pyBindOk]

/-- The collect events of the C2 scenario. -/
def lC2 : List Ev := (collectRes envC2 cfgBs itemBs 0).1

/-- The inventory-full handler events of the C2 scenario. -/
def evHC2 : List Ev := evsOf (handleFullInventory envC2 cfgBs itemBs)

/-- Witness for claim C2 (amended): in the concrete C2 scenario the loop's
trace is exactly collect + InventoryFull marker + handler events. -/
theorem c2_inventory_full_breaks_witness :
    craftLoop envC2 cfgBs itemBs 5 0
      = Except.ok ([Ev.collectEv] ++ lC2 ++ [Ev.handleFullEv] ++ evHC2) :=
  c2_inventory_full_breaks envC2 cfgBs itemBs 4 0 lC2 evHC2 (by decide) (by decide)

/-- Environment for the C3 scenario: on batch 0 exactly slot 4 (index 3)
fails the emptiness check; on batch 1 every slot passes. -/
def envC3 : BsEnv :=
  { baseEnv with
    slotMatch := fun b i => if b = 0 && i = 3 then none else some (0, 0) }

/-- Counterexample to claim C3: with exactly one occupied slot (slot 4,
index 3), collect attempts only slots 1-4 and stops — it does **not**
attempt all 6 slots — and then InventoryFull is reached exactly once. -/
theorem c3_counterexample :
    slotsAttempted (collectRes envC3 cfgBs itemBs 0).1
      = [Ev.slotTransfer 0, Ev.slotTransfer 1, Ev.slotTransfer 2,
          Ev.slotTransfer 3] ∧
    (collectRes envC3 cfgBs itemBs 0).2 = false ∧
    countEv Ev.handleFullEv (evsOf (runItem envC3 cfgBs itemBs 5)) = 1 := by
  decide

/-- When every slot of the remaining list passes the emptiness check, the
collect loop visits them all and reports the output emptied. -/
theorem collectLoop_all_empty (env : BsEnv) (batch : Nat) (tp : String)
    (hpy : env.hasPy = true) (hcv : env.hasCv2 = true) :
    ∀ (slots : List (Nat × Nat)) (idx : Nat),
      (∀ j, j < slots.length → env.slotMatch batch (idx + j) ≠ none) →
      ∃ l, collectLoop env batch (some tp) slots idx = Except.ok (l, true) ∧
        slotsAttempted l = (List.range' idx slots.length).map Ev.slotTransfer := by
  intro slots
  induction slots with
  | nil =>
    intro idx _
    exact ⟨[], rfl, rfl⟩
  | cons sl rest ih =>
    intro idx h
    obtain ⟨x, y⟩ := sl
    obtain ⟨p, hp⟩ : ∃ p, env.slotMatch batch idx = some p := by
      have h0 := h 0 (Nat.succ_pos _)
      rw [Nat.add_zero] at h0
      exact Option.ne_none_iff_exists'.mp h0
    obtain ⟨l', hl', hs'⟩ := ih (idx + 1) (fun j hj => by
      have hh := h (j + 1) (Nat.succ_lt_succ hj)
      rwa [Nat.add_comm j 1, ← Nat.add_assoc] at hh)
    refine ⟨[Ev.slotTransfer idx] ++ [Ev.clickAt x y "right"] ++ [Ev.sleepEv]
      ++ [Ev.screenshotEv] ++ [Ev.matchAttempt] ++ l', ?_, ?_⟩
    · simp [collectLoop, uiAct, hpy, tryNI, tryAll, matchCall, hcv, hp,
        pyBindOk, hl']
    · simp only [slotsAttempted, List.filter_append] at hs' ⊢
      simp [hs', List.range'_succ]

/-- When slot `idx + k` is the first of the remaining list to fail the
emptiness check, the collect loop attempts exactly the slots up to it and
reports the inventory full. -/
theorem collectLoop_first_fail (env : BsEnv) (batch : Nat) (tp : String)
    (hpy : env.hasPy = true) (hcv : env.hasCv2 = true) :
    ∀ (slots : List (Nat × Nat)) (idx k : Nat), k < slots.length →
      env.slotMatch batch (idx + k) = none →
      (∀ j, j < k → env.slotMatch batch (idx + j) ≠ none) →
      ∃ l, collectLoop env batch (some tp) slots idx = Except.ok (l, false) ∧
        slotsAttempted l = (List.range' idx (k + 1)).map Ev.slotTransfer := by
  intro slots
  induction slots with
  | nil =>
    intro idx k hk _ _
    exact absurd hk (Nat.not_lt_zero k)
  | cons sl rest ih =>
    intro idx k hk hfail hprev
    obtain ⟨x, y⟩ := sl
    cases k with
    | zero =>
      rw [Nat.add_zero] at hfail
      refine ⟨[Ev.slotTransfer idx] ++ [Ev.clickAt x y "right"] ++ [Ev.sleepEv]
        ++ [Ev.screenshotEv] ++ [Ev.matchAttempt], ?_, ?_⟩
      · simp [collectLoop, uiAct, hpy, tryNI, tryAll, matchCall, hcv, hfail,
          pyBindOk]
      · simp [slotsAttempted, List.range'_succ]
    | succ k =>
      obtain ⟨p, hp⟩ : ∃ p, env.slotMatch batch idx = some p := by
        have h0 := hprev 0 (Nat.succ_pos _)
        rw [Nat.add_zero] at h0
        exact Option.ne_none_iff_exists'.mp h0
      obtain ⟨l', hl', hs'⟩ := ih (idx + 1) k (Nat.lt_of_succ_lt_succ hk)
        (by rwa [Nat.add_comm (idx + 1) k, ← Nat.add_assoc, Nat.add_comm k idx])
        (fun j hj => by
          have hh := hprev (j + 1) (Nat.succ_lt_succ hj)
          rwa [Nat.add_comm j 1, ← Nat.add_assoc] at hh)
      refine ⟨[Ev.slotTransfer idx] ++ [Ev.clickAt x y "right"] ++ [Ev.sleepEv]
        ++ [Ev.screenshotEv] ++ [Ev.matchAttempt] ++ l', ?_, ?_⟩
      · simp [collectLoop, uiAct, hpy, tryNI, tryAll, matchCall, hcv, hp,
          pyBindOk, hl']
      · simp only [slotsAttempted, List.filter_append] at hs' ⊢
        simp [hs', List.range'_succ]

/-- The output grid always has 6 slots, whether derived from
`craft_window_region` or from the placeholder coordinates. -/
theorem outputSlots_length (cfg : BotCfg) : (outputSlots cfg).length = 6 := by
  unfold outputSlots
  cases cfg.craftWindowRegion with
  | none => rfl
  | some r =>
    obtain ⟨l, t, w, h⟩ := r
    rfl

/-- Claim C3 (amended): over the fixed grid of 6 output slots, collect
attempts the transfer-and-verify step only up to and including the **first**
slot that fails the emptiness check — it short-circuits there instead of
draining the remaining slots — and then the cycle transitions to
InventoryFull exactly once (the loop invokes the handler once and breaks);
when every slot passes, all 6 slots are attempted and the cycle loops back
to initiate another craft. -/
theorem c3_collect_short_circuits (env : BsEnv) (cfg : BotCfg) (item : ItemCfg)
    (batch k : Nat) (hpy : env.hasPy = true) (hcv : env.hasCv2 = true)
    (htpl : (item.triggers.lookup "empty_slot").getD "" ≠ "") :
    (k < 6 → env.slotMatch batch k = none →
      (∀ j, j < k → env.slotMatch batch j ≠ none) →
      collectItems env cfg item batch
          = Except.ok (collectRes env cfg item batch) ∧
        (collectRes env cfg item batch).2 = false ∧
        slotsAttempted (collectRes env cfg item batch).1
          = (List.range (k + 1)).map Ev.slotTransfer) ∧
    ((∀ j, j < 6 → env.slotMatch batch j ≠ none) →
      collectItems env cfg item batch
          = Except.ok (collectRes env cfg item batch) ∧
        (collectRes env cfg item batch).2 = true ∧
        slotsAttempted (collectRes env cfg item batch).1
          = (List.range 6).map Ev.slotTransfer) ∧
    (∀ l evS r fuel, collectItems env cfg item batch = Except.ok (l, true) →
      startCraft env item = Except.ok evS →
      craftLoop env cfg item fuel (batch + 1) = Except.ok r →
      craftLoop env cfg item (fuel + 1) batch
        = Except.ok ([Ev.collectEv] ++ l ++ [Ev.sleepEv, Ev.startCraftEv]
            ++ evS ++ r)) := by
  have htp : loadTemplate env.hasCv2 ((item.triggers.lookup "empty_slot").getD "")
      = some ((item.triggers.lookup "empty_slot").getD "") := by
    simp [loadTemplate, htpl, hcv]
  refine ⟨?_, ?_, ?_⟩
  · intro hk hfail hprev
    obtain ⟨l, hl, hs⟩ := collectLoop_first_fail env batch
      ((item.triggers.lookup "empty_slot").getD "") hpy hcv
      (outputSlots cfg) 0 k (by rw [outputSlots_length]; exact hk)
      (by simpa using hfail) (fun j hj => by simpa using hprev j hj)
    have hco : collectItems env cfg item batch = Except.ok (l, false) := by
      rw [collectItems, htp]
      exact hl
    have hcr : collectRes env cfg item batch = (l, false) := by
      rw [collectRes, hco]
    rw [hcr, hco]
    refine ⟨rfl, rfl, ?_⟩
    rw [hs, List.range_eq_range']
  · intro hall
    obtain ⟨l, hl, hs⟩ := collectLoop_all_empty env batch
      ((item.triggers.lookup "empty_slot").getD "") hpy hcv
      (outputSlots cfg) 0
      (fun j hj => by
        have := hall j (by rwa [outputSlots_length] at hj)
        simpa using this)
    have hco : collectItems env cfg item batch = Except.ok (l, true) := by
      rw [collectItems, htp]
      exact hl
    have hcr : collectRes env cfg item batch = (l, true) := by
      rw [collectRes, hco]
    rw [hcr, hco]
    refine ⟨rfl, rfl, ?_⟩
    rw [hs, outputSlots_length, List.range_eq_range']
  · intro l evS r fuel hl hS hr
    simp [craftLoop, hl, hS, hr, pyBindOk]

/-- Witness for claim C3 (amended): in the concrete C3 scenario, batch 0
(slot 4 occupied) attempts exactly slots 1-4 and reports the inventory
full; batch 1 (all slots empty) attempts all 6 and reports the output
emptied. -/
theorem c3_collect_short_circuits_witness :
    (collectRes envC3 cfgBs itemBs 0).2 = false ∧
    slotsAttempted (collectRes envC3 cfgBs itemBs 0).1
      = (List.range 4).map Ev.slotTransfer ∧
    (collectRes envC3 cfgBs itemBs 1).2 = true ∧
    slotsAttempted (collectRes envC3 cfgBs itemBs 1).1
      = (List.range 6).map Ev.slotTransfer :=
  have h0 := (c3_collect_short_circuits envC3 cfgBs itemBs 0 3 rfl rfl
    (by decide)).1 (by decide) (by decide) (by decide)
  have h1 := (c3_collect_short_circuits envC3 cfgBs itemBs 1 0 rfl rfl
    (by decide)).2.1 (by decide)
  ⟨h0.2.1, h0.2.2, h1.2.1, h1.2.2⟩

/-- Environment for the C8 scenario: collect signals a full inventory and
the crusher acquisition times out. -/
def envC8 : BsEnv :=
  { baseEnv with slotMatch := fun _ _ => none, crusherFound := false }

/-- Counterexample to claim C8: when the crusher acquisition fails, the
dismantle call logs and returns (its whole trace being the best-effort Esc,
the failed rotation and the warning), but the crafting cycle does **not**
resume crafting for the item afterward — after the InventoryFull handling
the item's trace ends with no further craft or collect, the loop having
broken. -/
theorem c8_counterexample :
    evsOf (handleFullInventory envC8 cfgBs itemBs)
      = [Ev.pressKey "esc", Ev.rotateCamera "дробилка" false,
          Ev.warn "crusher not found: skip dismantling"] ∧
    countEv Ev.handleFullEv (evsOf (runItem envC8 cfgBs itemBs 5)) = 1 ∧
    countEv Ev.startCraftEv
      (afterFirst Ev.handleFullEv (evsOf (runItem envC8 cfgBs itemBs 5))) = 0 ∧
    countEv Ev.collectEv
      (afterFirst Ev.handleFullEv (evsOf (runItem envC8 cfgBs itemBs 5))) = 0 := by
  decide

/-- Claim C8 (amended): when the crusher acquisition fails, the dismantle
call logs the failure and returns having performed no interaction key
press, no inventory opening, no scanning (captures or template searches)
and no clicking — only the best-effort Esc press and the camera rotation,
both of which precede the acquisition, occur.  Afterwards the crafting
cycle does not resume crafting for this item within the cycle: the loop
breaks right after the handler returns; crafting continues only with the
next item or the next `run_cycle` invocation. -/
theorem c8_dismantle_abort (env : BsEnv) (cfg : BotCfg) (item : ItemCfg)
    (hcr : env.crusherFound = false) :
    handleFullInventory env cfg item
      = Except.ok ((if env.hasPy then [Ev.pressKey "esc"] else [])
          ++ [Ev.rotateCamera "дробилка" false,
              Ev.warn "crusher not found: skip dismantling"]) ∧
    (∀ evH, handleFullInventory env cfg item = Except.ok evH →
      Ev.pressKey "e" ∉ evH ∧ Ev.pressKey "i" ∉ evH ∧ Ev.screenshotEv ∉ evH ∧
      (∀ g, Ev.findAttempt g ∉ evH) ∧ (∀ x y b, Ev.clickAt x y b ∉ evH)) ∧
    (∀ l evH fuel batch,
      collectItems env cfg item batch = Except.ok (l, false) →
      handleFullInventory env cfg item = Except.ok evH →
      craftLoop env cfg item (fuel + 1) batch
        = Except.ok ([Ev.collectEv] ++ l ++ [Ev.handleFullEv] ++ evH)) := by
  have h1 : handleFullInventory env cfg item
      = Except.ok ((if env.hasPy then [Ev.pressKey "esc"] else [])
          ++ [Ev.rotateCamera "дробилка" false,
              Ev.warn "crusher not found: skip dismantling"]) := by
    cases hpy : env.hasPy <;>
      simp [handleFullInventory, pressTryPass, uiAct, tryNI, hcr, hpy, pyBindOk]
  refine ⟨h1, ?_, ?_⟩
  · intro evH hevH
    rw [h1] at hevH
    injection hevH with hevH
    subst hevH
    cases env.hasPy <;> simp
  · intro l evH fuel batch hl hevH
    simp [craftLoop, hl, hevH, pyBindOk]

/-- Witness for claim C8 (amended), at the concrete C8 scenario. -/
theorem c8_dismantle_abort_witness :
    handleFullInventory envC8 cfgBs itemBs
      = Except.ok ((if envC8.hasPy then [Ev.pressKey "esc"] else [])
          ++ [Ev.rotateCamera "дробилка" false,
              Ev.warn "crusher not found: skip dismantling"]) ∧
    (Ev.pressKey "e" ∉ evsOf (handleFullInventory envC8 cfgBs itemBs) ∧
      Ev.pressKey "i" ∉ evsOf (handleFullInventory envC8 cfgBs itemBs)) ∧
    craftLoop envC8 cfgBs itemBs 5 0
      = Except.ok ([Ev.collectEv] ++ (collectRes envC8 cfgBs itemBs 0).1
          ++ [Ev.handleFullEv] ++ evsOf (handleFullInventory envC8 cfgBs itemBs)) :=
  have h := c8_dismantle_abort envC8 cfgBs itemBs rfl
  have h2 := h.2.1 (evsOf (handleFullInventory envC8 cfgBs itemBs)) (by decide)
  ⟨h.1, ⟨h2.1, h2.2.1⟩,
    h.2.2 (collectRes envC8 cfgBs itemBs 0).1
      (evsOf (handleFullInventory envC8 cfgBs itemBs)) 4 0 (by decide) (by decide)⟩

/-- Item for the C9 scenario: the recipe-icon trigger template is
configured. -/
def itemC9 : ItemCfg :=
  { craftItemName := "Простой топор"
    gradePreferences := [("зелёный", true)]
    gradeIcons := [("зелёный", "green.png")]
    triggers := [("item", "axe_icon.png"), ("create", ""), ("empty_slot", "")] }

/-- The configuration holding `itemC9`. -/
def cfgC9 : BotCfg :=
  { items := [itemC9], craftWindowRegion := none, inventoryRegion := none }

/-- Environment for the C9 scenario: the recipe-icon template would match
at (40, 60) were it used; the recipe-list OCR never finds the name; the
brightness heuristic reports the first output slot occupied so the cycle
ends quickly; the crusher is not found. -/
def envC9 : BsEnv :=
  { baseEnv with
    selMatch := some (40, 60)
    slotMean := fun _ _ => 10
    crusherFound := false }

/-- Claim C9, code bug: `run_cycle` (blacksmithing.py line 61) calls
`select_recipe(name)` without `item_cfg`, so `select_recipe`'s template
lookup yields None and the vision-match strategy of its fallback chain is
never attempted — the whole cycle performs zero template-match attempts even
though the item's recipe-icon trigger is configured, loads, and would match,
and the recipe stays unselected when OCR fails.  Had the call passed
`item_cfg` (as the neighbouring `start_craft` and
`collect_items_from_output` calls do), the vision strategy would run first
and select the recipe. -/
theorem c9_vision_strategy_dead :
    countEv Ev.matchAttempt (evsOf (runItem envC9 cfgC9 itemC9 3)) = 0 ∧
    (selRes envC9 none itemC9.craftItemName).2 = false ∧
    loadTemplate envC9.hasCv2 ((itemC9.triggers.lookup "item").getD "")
      = some "axe_icon.png" ∧
    countEv Ev.matchAttempt
      (selRes envC9 (some "axe_icon.png") itemC9.craftItemName).1 = 1 ∧
    (selRes envC9 (some "axe_icon.png") itemC9.craftItemName).2 = true := by
  decide

/-- With text recognition absent, every OCR attempt of the recipe loop is
absorbed (`PerceptionUnavailable` caught, treated as no match) and the loop
ends without a click. -/
theorem selOcrLoop_no_ocr (env : BsEnv) (hocr : env.hasOcr = false) :
    ∀ n i, ∃ evs, selOcrLoop env i n = Except.ok (evs, false) := by
  intro n
  induction n with
  | zero =>
    intro i
    exact ⟨[], rfl⟩
  | succ n ih =>
    intro i
    obtain ⟨evs, hevs⟩ := ih (i + 1)
    cases hpy : env.hasPy
    · exact ⟨[Ev.warn "recipe scroll unavailable"], by
        simp [selOcrLoop, uiAct, hpy, tryNI, pyBindOk]⟩
    · exact ⟨[Ev.screenshotEv, Ev.ocrAttempt] ++ [Ev.scrollBy (-300)]
        ++ [Ev.sleepEv] ++ evs, by
        simp [selOcrLoop, uiAct, hpy, tryNI, tryAll, locateTextCall, hocr,
          pyBindOk, hevs]⟩

/-- With both the matching and the text-recognition capability absent,
`select_recipe` absorbs every `PerceptionUnavailable`, runs its fallback
chain to exhaustion and ends with the could-not-locate warning, leaving the
recipe unselected. -/
theorem selectRecipe_no_perception (env : BsEnv) (tpl : Option String)
    (name : String) (hcv : env.hasCv2 = false) (hocr : env.hasOcr = false) :
    ∃ l, selectRecipe env tpl name = Except.ok (l, false) ∧
      l.getLast? = some (Ev.warn "recipe not found") := by
  obtain ⟨evs, hevs⟩ := selOcrLoop_no_ocr env hocr 6 0
  have hfb : ∀ pre, selFallback env pre
      = Except.ok (pre ++ evs ++ [Ev.warn "recipe not found"], false) := by
    intro pre
    simp [selFallback, hevs, pyBindOk]
  cases tpl with
  | none =>
    refine ⟨[] ++ evs ++ [Ev.warn "recipe not found"], ?_, ?_⟩
    · simp [selectRecipe, hfb]
    · simp
  | some tp =>
    cases hpy : env.hasPy
    · refine ⟨[] ++ evs ++ [Ev.warn "recipe not found"], ?_, ?_⟩
      · simp [selectRecipe, uiAct, hpy, tryNI, pyBindOk, hfb]
      · simp
    · refine ⟨([Ev.screenshotEv] ++ [Ev.matchAttempt]) ++ evs
        ++ [Ev.warn "recipe not found"], ?_, ?_⟩
      · simp [selectRecipe, uiAct, hpy, tryNI, tryAll, matchCall, hcv,
          pyBindOk, hfb]
      · show ((([Ev.screenshotEv] ++ [Ev.matchAttempt]) ++ evs)
            ++ [Ev.warn "recipe not found"]).getLast?
          = some (Ev.warn "recipe not found")
        exact List.getLast?_concat _

/-- With the matching and text capabilities absent, every `start_craft`
strategy absorbs its failure and the call falls through to the keyboard
shortcut without raising. -/
theorem startCraft_no_perception (env : BsEnv) (item : ItemCfg)
    (hcv : env.hasCv2 = false) (hocr : env.hasOcr = false) :
    ∃ evs, startCraft env item = Except.ok evs := by
  have h1 : craftTplStrategy env item = Except.ok ([], false) := by
    simp [craftTplStrategy, loadTemplate, hcv]
  cases hpy : env.hasPy
  · refine ⟨[] ++ [] ++ [] ++ [Ev.warn "no craft method"], ?_⟩
    simp [startCraft, h1, craftOcrStrategy, craftBtnStrategy, uiAct, hpy,
      tryNI, pyBindOk]
  · by_cases hbtn : (item.gradeIcons.lookup "создать").getD "" = ""
    · refine ⟨[] ++ ([Ev.screenshotEv] ++ [Ev.ocrAttempt])
        ++ [Ev.screenshotEv] ++ [Ev.pressKey "c"], ?_⟩
      simp [startCraft, h1, craftOcrStrategy, craftBtnStrategy, uiAct, hpy,
        tryNI, tryAll, locateTextCall, hocr, hbtn, pyBindOk]
    · refine ⟨[] ++ ([Ev.screenshotEv] ++ [Ev.ocrAttempt])
        ++ ([Ev.screenshotEv] ++ [Ev.btnAttempt]) ++ [Ev.pressKey "c"], ?_⟩
      simp [startCraft, h1, craftOcrStrategy, craftBtnStrategy, uiAct, hpy,
        tryNI, tryAll, locateTextCall, locateButtonCall, hocr, hcv, hbtn,
        pyBindOk]

/-- The collect loop with no empty-slot template (the heuristic path) never
raises. -/
theorem collectLoop_heuristic_ok (env : BsEnv) (batch : Nat) :
    ∀ slots idx, ∃ r,
      collectLoop env batch none slots idx = Except.ok r := by
  intro slots
  induction slots with
  | nil =>
    intro idx
    exact ⟨([], true), rfl⟩
  | cons sl rest ih =>
    intro idx
    obtain ⟨x, y⟩ := sl
    cases hpy : env.hasPy
    · exact ⟨([Ev.warn "collect ui unavailable"], true), by
        simp [collectLoop, uiAct, hpy, tryNI, pyBindOk]⟩
    · obtain ⟨r, hr⟩ := ih (idx + 1)
      by_cases hm : env.slotMean batch idx < 80
      · exact ⟨([Ev.slotTransfer idx] ++ [Ev.clickAt x y "right"]
          ++ [Ev.sleepEv] ++ [Ev.screenshotEv], false), by
          simp [collectLoop, uiAct, hpy, tryNI, pyBindOk, hm]⟩
      · exact ⟨([Ev.slotTransfer idx] ++ [Ev.clickAt x y "right"]
          ++ [Ev.sleepEv] ++ [Ev.screenshotEv] ++ r.1, r.2), by
          simp [collectLoop, uiAct, hpy, tryNI, pyBindOk, hm, hr]⟩

/-- With the matching capability absent every grade's template fails to
load, so the dismantle routine skips each enabled grade with a logged
warning, never reaching the unguarded `find_items_by_template` call — no
`PerceptionUnavailable` escapes. -/
theorem dismantleGrades_no_cv2 (env : BsEnv) (cfg : BotCfg) (item : ItemCfg)
    (hcv : env.hasCv2 = false) :
    ∀ prefs, ∃ evs, dismantleGrades env cfg item prefs = Except.ok evs ∧
      ∀ g, (g, true) ∈ prefs →
        Ev.warn ("no template for grade " ++ g) ∈ evs := by
  intro prefs
  have htpl : ∀ g, gradeTemplate env cfg item g = none := by
    intro g
    simp [gradeTemplate, loadTemplate, hcv]
    cases cfg.items.head? <;> simp [loadTemplate, hcv]
  induction prefs with
  | nil =>
    exact ⟨[Ev.info "dismantle finished"], rfl, by simp⟩
  | cons p rest ih =>
    obtain ⟨g, send⟩ := p
    obtain ⟨evs, hevs, hmem⟩ := ih
    cases hsend : send
    · refine ⟨evs, by simp [dismantleGrades, hevs], ?_⟩
      intro g2 hg2
      rcases List.mem_cons.mp hg2 with heq | hrest
      · injection heq with h1 h2
        exact (Bool.noConfusion h2)
      · exact hmem g2 hrest
    · refine ⟨[Ev.warn ("no template for grade " ++ g)] ++ evs, by
        simp [dismantleGrades, htpl g, hevs, pyBindOk], ?_⟩
      intro g2 hg2
      rcases List.mem_cons.mp hg2 with heq | hrest
      · injection heq with h1 h2
        rw [h1]
        simp
      · simp [hmem g2 hrest]

/-- Claim C5: for every perception query invoked from the crafting or
dismantling cycle while the matching and text-recognition capabilities are
absent, the resulting `PerceptionUnavailable` (`NotImplementedError`) is
treated by the caller as "no match": `select_recipe` falls through its
chain and logs the could-not-locate warning, `start_craft` falls through to
the keyboard shortcut, collect falls back to the brightness heuristic, and
the dismantle routine skips each enabled grade with a logged warning (its
templates never load, so the unguarded `find_items_by_template` call is
unreachable).  No call propagates the failure out of its component. -/
theorem c5_perception_unavailable (env : BsEnv) (cfg : BotCfg) (item : ItemCfg)
    (tpl : Option String) (name : String) (batch : Nat)
    (hcv : env.hasCv2 = false) (hocr : env.hasOcr = false) :
    selectRecipe env tpl name = Except.ok (selRes env tpl name) ∧
    startCraft env item = Except.ok (evsOf (startCraft env item)) ∧
    collectItems env cfg item batch
      = Except.ok (collectRes env cfg item batch) ∧
    dismantleItems env cfg item
      = Except.ok (evsOf (dismantleItems env cfg item)) ∧
    (selRes env tpl name).2 = false ∧
    (selRes env tpl name).1.getLast? = some (Ev.warn "recipe not found") ∧
    (∀ g, (g, true) ∈ item.gradePreferences →
      Ev.warn ("no template for grade " ++ g)
        ∈ evsOf (dismantleItems env cfg item)) := by
  obtain ⟨l, hsel, hlast⟩ := selectRecipe_no_perception env tpl name hcv hocr
  obtain ⟨evsC, hcraft⟩ := startCraft_no_perception env item hcv hocr
  have hempty : loadTemplate env.hasCv2
      ((item.triggers.lookup "empty_slot").getD "") = none := by
    simp [loadTemplate, hcv]
  obtain ⟨rC, hcoll⟩ := collectLoop_heuristic_ok env batch (outputSlots cfg) 0
  have hcoll2 : collectItems env cfg item batch = Except.ok rC := by
    rw [collectItems, hempty]
    exact hcoll
  obtain ⟨evsD, hdis, hdmem⟩ :=
    dismantleGrades_no_cv2 env cfg item hcv item.gradePreferences
  have hdis2 : dismantleItems env cfg item = Except.ok evsD := hdis
  have hselR : selRes env tpl name = (l, false) := by
    rw [selRes, hsel]
  refine ⟨?_, ?_, ?_, ?_, ?_, ?_, ?_⟩
  · rw [hsel, hselR]
  · rw [hcraft]
    simp [evsOf, hcraft]
  · rw [hcoll2]
    simp [collectRes, hcoll2]
  · rw [hdis2]
    simp [evsOf, hdis2]
  · rw [hselR]
  · rw [hselR]
    exact hlast
  · intro g hg
    rw [hdis2]
    exact hdmem g hg

/-- Environment for the C5 witness: vision and OCR both absent. -/
def envC5 : BsEnv := { baseEnv with hasCv2 := false, hasOcr := false }

/-- Witness for claim C5 at a concrete environment with both capabilities
absent. -/
theorem c5_perception_unavailable_witness :
    selectRecipe envC5 (some "x.png") "Простой топор"
      = Except.ok (selRes envC5 (some "x.png") "Простой топор") ∧
    (selRes envC5 (some "x.png") "Простой топор").2 = false ∧
    (selRes envC5 (some "x.png") "Простой топор").1.getLast?
      = some (Ev.warn "recipe not found") ∧
    dismantleItems envC5 cfgBs itemBs
      = Except.ok (evsOf (dismantleItems envC5 cfgBs itemBs)) ∧
    Ev.warn ("no template for grade " ++ "зелёный")
      ∈ evsOf (dismantleItems envC5 cfgBs itemBs) :=
  have h := c5_perception_unavailable envC5 cfgBs itemBs (some "x.png")
    "Простой топор" 0 rfl rfl
  ⟨h.1, h.2.2.2.2.1, h.2.2.2.2.2.1, h.2.2.2.1,
    h.2.2.2.2.2.2 "зелёный" (by decide)⟩

/-! ## core.py: the Orchestrator main loop (`run_bot`, lines 191-211)

The loop `while not stop_event.is_set(): for module in modules: ...` wraps
each `module.run_cycle()` in `try/except Exception`.  A module invocation is
modelled by what it raises (if anything) and whether it set the stop flag
while running; the Cancelled signal (`RuntimeError("Bot stopped")`) is
raised only upon observing the Stop flag, so a run that raises it has
`setsStop = true`. -/

/-- Exception kinds a profession module can raise into the orchestrator:
both are subclasses of Python's `Exception`. -/
inductive OExc where
  | cancelled
  | otherErr
  deriving DecidableEq, Repr

/-- `except Exception` (core.py line 200) catches every `Exception`
subclass; `RuntimeError` — the Cancelled signal — is one of them. -/
def exceptionCatches : OExc → Bool := fun _ => true

/-- One module invocation: what it raises, and whether the Stop flag was set
during it. -/
structure ModRun where
  raises : Option OExc
  setsStop : Bool
  deriving DecidableEq, Repr

/-- Orchestrator events. -/
inductive OEv where
  | execStart (m : Nat)
  | modDone (m : Nat)
  | caughtLog (m : Nat) (e : OExc)
  | delay
  deriving DecidableEq, Repr

/-- The module boundary (core.py lines 197-202): run the module; an
exception that `except Exception` catches is logged (`logger.error`) and the
loop continues; one it does not catch would propagate. -/
def modStep (i : Nat) (b : ModRun) : Except OExc (List OEv) :=
  match b.raises with
  | none => Except.ok [OEv.execStart i, OEv.modDone i]
  | some e =>
    if exceptionCatches e then Except.ok [OEv.execStart i, OEv.caughtLog i e]
    else Except.error e

/-- The for-loop over modules (core.py lines 194-206): the stop flag is
checked before each module and again after it (breaking before the
inter-module delay). -/
def passLoop (stop : Bool) (i : Nat) :
    List ModRun → Except OExc (List OEv × Bool)
  | [] => Except.ok ([], stop)
  | b :: rest =>
    if stop then Except.ok ([], stop)
    else do
      let evs ← modStep i b
      let stop2 := stop || b.setsStop
      if stop2 then Except.ok (evs, stop2)
      else do
        let r ← passLoop stop2 (i + 1) rest
        Except.ok (evs ++ [OEv.delay] ++ r.1, r.2)

/-- The outer while-loop (core.py line 193): repeat passes until the Stop
flag is observed; `passes p` is the behaviour of the module list on pass
`p`, and `fuel` bounds the unrolling of the unbounded loop. -/
def runLoop (passes : Nat → List ModRun) :
    Nat → Nat → Bool → Except OExc (List OEv)
  | 0, _, _ => Except.ok []
  | fuel + 1, p, stop =>
    if stop then Except.ok []
    else do
      let r ← passLoop stop 0 (passes p)
      let rest ← runLoop passes fuel (p + 1) r.2
      Except.ok (r.1 ++ rest)

/-- `Except.ok` bind reduction for the orchestrator monad. -/
theorem oBindOk {α β : Type} (x : α) (f : α → Except OExc β) :
    (Except.ok x >>= f) = f x := rfl

/-- Once the stop flag is set the outer loop exits immediately. -/
theorem runLoop_stopped (passes : Nat → List ModRun) :
    ∀ fuel p, runLoop passes fuel p true = Except.ok [] := by
  intro fuel p
  cases fuel <;> simp [runLoop]

/-- No module-boundary outcome escapes: `except Exception` catches
everything a module raises. -/
theorem modStep_ok (i : Nat) (b : ModRun) :
    ∃ evs, modStep i b = Except.ok evs := by
  cases hb : b.raises with
  | none => exact ⟨[OEv.execStart i, OEv.modDone i], by simp [modStep, hb]⟩
  | some e =>
    exact ⟨[OEv.execStart i, OEv.caughtLog i e],
      by simp [modStep, hb, exceptionCatches]⟩

/-- No exception ever escapes a pass. -/
theorem passLoop_ok (i : Nat) :
    ∀ (mods : List ModRun) (stop : Bool),
      ∃ r, passLoop stop i mods = Except.ok r := by
  intro mods
  induction mods generalizing i with
  | nil =>
    intro stop
    exact ⟨([], stop), rfl⟩
  | cons b rest ih =>
    intro stop
    cases hstop : stop
    · obtain ⟨evs, hevs⟩ := modStep_ok i b
      cases hs2 : b.setsStop
      · obtain ⟨r, hr⟩ := ih (i + 1) false
        exact ⟨(evs ++ [OEv.delay] ++ r.1, r.2), by
          simp [passLoop, hevs, hs2, hr, oBindOk]⟩
      · exact ⟨(evs, true), by simp [passLoop, hevs, hs2, oBindOk]⟩
    · exact ⟨([], true), by simp [passLoop]⟩

/-- The outer loop always returns: no exception propagates out of it. -/
theorem runLoop_ok (passes : Nat → List ModRun) :
    ∀ fuel p stop, ∃ evs, runLoop passes fuel p stop = Except.ok evs := by
  intro fuel
  induction fuel with
  | zero =>
    intro p stop
    exact ⟨[], rfl⟩
  | succ fuel ih =>
    intro p stop
    cases hstop : stop
    · obtain ⟨r, hr⟩ := passLoop_ok 0 (passes p) false
      obtain ⟨evs, hevs⟩ := ih (p + 1) r.2
      exact ⟨r.1 ++ evs, by simp [runLoop, hr, hevs, oBindOk]⟩
    · exact ⟨[], by simp [runLoop]⟩

/-- Claim C4 (amended): (i) a non-Cancelled exception raised by a module is
caught at the module boundary, logged, and the pass continues with the next
module — the run never aborts on it; (ii) no exception of any kind, the
Cancelled signal included, propagates out of the orchestrator loop: the
`except Exception` handler catches them all; (iii) a module run that raised
Cancelled (which implies the Stop flag was set) is likewise caught and
logged at the same module boundary, after which the loop re-checks the Stop
flag, skips the remaining modules of the pass, and the whole run terminates
— because of the flag, not by exception propagation. -/
theorem c4_cancelled_caught (b : ModRun) (i : Nat) (rest : List ModRun)
    (passes : Nat → List ModRun) (fuel p : Nat) :
    (b.raises = some OExc.otherErr → b.setsStop = false →
      ∀ r, passLoop false (i + 1) rest = Except.ok r →
      passLoop false i (b :: rest)
        = Except.ok (([OEv.execStart i, OEv.caughtLog i OExc.otherErr]
            ++ [OEv.delay] ++ r.1, r.2))) ∧
    (∀ stop, ∃ evs, runLoop passes fuel p stop = Except.ok evs) ∧
    (b.raises = some OExc.cancelled → b.setsStop = true →
      passes p = b :: rest →
      runLoop passes (fuel + 1) p false
        = Except.ok [OEv.execStart 0, OEv.caughtLog 0 OExc.cancelled]) := by
  refine ⟨?_, fun stop => runLoop_ok passes fuel p stop, ?_⟩
  · intro hr hs r hrest
    simp [passLoop, modStep, hr, hs, exceptionCatches, oBindOk, hrest]
  · intro hr hs hp
    have hpass : passLoop false 0 (b :: rest)
        = Except.ok ([OEv.execStart 0, OEv.caughtLog 0 OExc.cancelled], true) := by
      simp [passLoop, modStep, hr, hs, exceptionCatches, oBindOk]
    simp [runLoop, hp, hpass, runLoop_stopped, oBindOk]

/-- Behaviour for the C4 counterexample: on every pass, module 0 raises the
Cancelled signal (having observed Stop), module 1 raises nothing. -/
def passesC4 : Nat → List ModRun :=
  fun _ => [{ raises := some OExc.cancelled, setsStop := true },
    { raises := none, setsStop := false }]

/-- Counterexample to claim C4 as stated: the Cancelled signal does **not**
propagate uncaught to the orchestrator's outer loop — the run returns
normally with the exception caught and logged at the module boundary
(`except Exception` catches `RuntimeError`), the remaining module is
skipped, and the loop exits because the Stop flag is set. -/
theorem c4_counterexample :
    runLoop passesC4 5 0 false
      = Except.ok [OEv.execStart 0, OEv.caughtLog 0 OExc.cancelled] ∧
    (runLoop passesC4 5 0 false).isOk = true := by
  refine ⟨by decide, by decide⟩

/-- Witness for claim C4 (amended) at the concrete behaviours: an isolated
non-Cancelled failure logs and the pass continues; the C4 pass list ends
the run with the Cancelled signal caught. -/
theorem c4_cancelled_caught_witness :
    passLoop false 0 ({ raises := some OExc.otherErr, setsStop := false }
        :: [{ raises := none, setsStop := false }])
      = Except.ok ([OEv.execStart 0, OEv.caughtLog 0 OExc.otherErr, OEv.delay,
          OEv.execStart 1, OEv.modDone 1, OEv.delay], false) ∧
    runLoop passesC4 3 0 false
      = Except.ok [OEv.execStart 0, OEv.caughtLog 0 OExc.cancelled] :=
  have h1 := (c4_cancelled_caught
    { raises := some OExc.otherErr, setsStop := false } 0
    [{ raises := none, setsStop := false }] passesC4 2 0).1 rfl rfl
    ([OEv.execStart 1, OEv.modDone 1, OEv.delay], false) (by decide)
  have h2 := (c4_cancelled_caught
    { raises := some OExc.cancelled, setsStop := true } 0
    [{ raises := none, setsStop := false }] passesC4 2 0).2.2 rfl rfl rfl
  ⟨by simpa using h1, h2⟩
